import Mathlib

/-!
# QuickJS / libuv binding (`quickjs-libuv-v2.c`): embedding and properties

The binding is straight-line C glue between two collaborators, the script
engine (QuickJS) and the event loop (libuv).  The functions embedded are those
of `quickjs-libuv-v2.c`; of the first version, `quickjs-libuv.c`, the
completion dispatcher is embedded in the namespace `V1`.  The embedding is as
follows.

* Every C function becomes a Lean function that returns the C return value
  together with the ordered list of collaborator calls it performed (its
  *trace*).  A release (`free`, `JS_FreeValue`, `JS_FreeCString`) is an event of
  the trace, so "released exactly once" is a statement about the trace.
* What a collaborator answers (does `calloc` succeed, what does `uv_fs_open`
  return) is an input of the function, gathered in an environment record.
* A host function called through `JS_Call` is opaque: the call is recorded, its
  own effects are outside the model.  Engine allocations inside value
  constructors (`JS_NewObject`, `JS_NewString`, ...) are taken to succeed.
* Dereferencing a null context pointer is a fault (`Except.error`).
* `js_uv_create_promise` hands the engine the address of one `JSValue` where it
  stores two.  Which object of the caller's frame receives the second store is
  the compiler's choice and an input of the caller (`PastResolve`).
* `int` values are mathematical integers; a narrowing conversion between C
  integer types is written out (`toInt32`, `toInt64`, `toUInt64`,
  `uv_buf_init`).
-/

namespace QuickJSLibuv

/-! ## Script values -/

/-- Script values as far as the binding builds or inspects them.  An object is
`newObject` or `newError` followed by the property stores made on it. -/
inductive JSValue where
  | undefined
  | null
  | exception
  | int (n : Int)
  | str (s : String)
  | arrayBuffer (bytes : List Nat)
  | func (id : Nat)
  | cfunction (name : String)
  | promise (id : Nat)
  | resolveFn (id : Nat)
  | rejectFn (id : Nat)
  | newObject
  | newError
  | setProp (obj : JSValue) (key : String) (val : JSValue)
  deriving DecidableEq, Repr

def JS_IsUndefined : JSValue → Bool
  | .undefined => true
  | _ => false

def JS_IsNull : JSValue → Bool
  | .null => true
  | _ => false

def JS_IsException : JSValue → Bool
  | .exception => true
  | _ => false

def JS_IsString : JSValue → Bool
  | .str _ => true
  | _ => false

def JS_IsNumber : JSValue → Bool
  | .int _ => true
  | _ => false

def JS_IsArrayBuffer : JSValue → Bool
  | .arrayBuffer _ => true
  | _ => false

def JS_IsFunction : JSValue → Bool
  | .func _ => true
  | .cfunction _ => true
  | .resolveFn _ => true
  | .rejectFn _ => true
  | _ => false

/-- Property read: the last store to `key` wins. -/
def JSValue.getProp : JSValue → String → Option JSValue
  | .setProp obj k v, key => if k = key then some v else JSValue.getProp obj key
  | _, _ => none

/-- Conversion of an integer to a 32-bit signed `int` (two's complement wrap). -/
def toInt32 (x : Int) : Int := (x + 2147483648) % 4294967296 - 2147483648

/-- Conversion of an integer to a 64-bit signed integer. -/
def toInt64 (x : Int) : Int :=
  (x + 9223372036854775808) % 18446744073709551616 - 9223372036854775808

/-- The engine number for an `int32_t` argument. -/
def JS_NewInt32 (v : Int) : JSValue := .int v

/-- Number of low bits a magnitude `n` loses when it is stored in the 53-bit
significand of a double (`fuel` bounds the bits examined). -/
def doubleShift : Nat → Nat → Nat
  | 0, _ => 0
  | fuel + 1, n => if n < 9007199254740992 then 0 else doubleShift fuel (n / 2) + 1

/-- The conversion `(double)val` of a 64-bit integer: exact below 2^53 in
magnitude, rounded to the nearest representable value (ties to even) above.  The
result is given by its integer value. -/
def int64ToDouble (v : Int) : Int :=
  let n := v.natAbs
  if n < 9007199254740992 then v
  else
    let shift := doubleShift 11 n
    let q := n / 2 ^ shift
    let r := n % 2 ^ shift
    let half := 2 ^ (shift - 1)
    let q := if half < r ∨ (r = half ∧ q % 2 = 1) then q + 1 else q
    (if v < 0 then -1 else 1) * ((q * 2 ^ shift : Nat) : Int)

/-- The engine number for an `int64_t` argument: an `int32` number when the
value fits, a double otherwise. -/
def JS_NewInt64 (v : Int) : JSValue :=
  if v = toInt32 v then JS_NewInt32 v else .int (int64ToDouble v)

def JS_NewString (s : String) : JSValue := .str s

def JS_SetPropertyStr (obj : JSValue) (key : String) (val : JSValue) : JSValue :=
  .setProp obj key val

/-- Copy of the first `len` bytes stored at a native buffer. -/
def JS_NewArrayBufferCopy (buf : List Nat) (len : Nat) : JSValue :=
  .arrayBuffer (buf.take len)

/-- The call `JS_NewArrayBuffer(ctx, 0)` of the source: a byte buffer of length
zero. -/
def JS_NewArrayBuffer0 : JSValue := .arrayBuffer []

/-! ## Collaborator calls -/

/-- Size argument of `malloc`: a byte count or the `sizeof` of a native type. -/
inductive AllocSize where
  | bytes (n : Nat)
  | sizeof (type : String)
  deriving DecidableEq, Repr

/-- One call into the engine, the C allocator or the event loop. -/
inductive Event where
  | JS_ThrowTypeError (msg : String)
  | JS_ThrowOutOfMemory
  | JS_ToCString (ptr : Nat)
  | JS_FreeCString (ptr : Nat)
  | JS_NewPromiseCapability (id : Nat)
  | JS_DupValue (v : JSValue)
  | JS_FreeValue (v : JSValue)
  | JS_Call (f : JSValue) (args : List JSValue)
  | calloc (ptr : Nat)
  | malloc (ptr : Nat) (size : AllocSize)
  | free (ptr : Nat)
  | uv_fs_open (req : Nat) (path : String) (flags : String)
  | uv_fs_stat (path : String)
  | uv_fs_close (fd : Int)
  | uv_fs_read (req : Nat) (fd : Int) (buf : Nat) (len : Nat)
  | uv_fs_write (req : Nat) (fd : Int) (data : Nat) (len : Nat)
  | uv_tcp_init (handle : Nat)
  | uv_tcp_bind (handle : Nat) (port : Int)
  | uv_listen (handle : Nat) (backlog : Nat)
  | uv_accept (server : Nat) (client : Nat)
  | uv_close (handle : Nat)
  | uv_timer_init (handle : Nat)
  | uv_timer_start (handle : Nat) (timeout : Int) (repeat_ms : Nat)
  | uv_timer_stop (handle : Nat)
  | uv_run (loop : Nat)
  | uv_stop (loop : Nat)
  deriving DecidableEq, Repr

abbrev Trace := List Event

/-- Host-function invocations of a trace, in order. -/
def calls : Trace → List (JSValue × List JSValue)
  | [] => []
  | .JS_Call f args :: t => (f, args) :: calls t
  | _ :: t => calls t

/-- Values released with `JS_FreeValue`, in order. -/
def freedValues : Trace → List JSValue
  | [] => []
  | .JS_FreeValue v :: t => v :: freedValues t
  | _ :: t => freedValues t

/-- Blocks released with `free`, in order. -/
def freedBlocks : Trace → List Nat
  | [] => []
  | .free p :: t => p :: freedBlocks t
  | _ :: t => freedBlocks t

/-- Blocks obtained from `calloc` or `malloc`, in order. -/
def allocatedBlocks : Trace → List Nat
  | [] => []
  | .calloc p :: t => p :: allocatedBlocks t
  | .malloc p _ :: t => p :: allocatedBlocks t
  | _ :: t => allocatedBlocks t

/-- Promises created, in order. -/
def createdPromises : Trace → List Nat
  | [] => []
  | .JS_NewPromiseCapability p :: t => p :: createdPromises t
  | _ :: t => createdPromises t

/-- Type errors thrown by the binding, in order. -/
def typeErrors : Trace → List String
  | [] => []
  | .JS_ThrowTypeError m :: t => m :: typeErrors t
  | _ :: t => typeErrors t

/-- C strings released with `JS_FreeCString`, in order. -/
def freedCStrings : Trace → List Nat
  | [] => []
  | .JS_FreeCString p :: t => p :: freedCStrings t
  | _ :: t => freedCStrings t

/-- Values duplicated with `JS_DupValue`, in order. -/
def dupValues : Trace → List JSValue
  | [] => []
  | .JS_DupValue v :: t => v :: dupValues t
  | _ :: t => dupValues t

/-- Client sockets on which `uv_accept` was attempted, in order. -/
def acceptAttempts : Trace → List Nat
  | [] => []
  | .uv_accept _ client :: t => client :: acceptAttempts t
  | _ :: t => acceptAttempts t

/-- Faults of the C code that end the execution. -/
inductive Fault where
  | nullDereference
  deriving DecidableEq, Repr

/-! ## Records -/

/-- The struct `JSUVContext`; `loop` is `none` for a null loop pointer. -/
structure JSUVContext where
  rt : Nat
  ctx : Nat
  loop : Option Nat
  ref_count : Int
  deriving DecidableEq, Repr

/-- The struct `JSUVFSRequest`.  `self` is the address of the record, `buffer`
the address of its byte buffer (`none` for null).  The embedded `uv_fs_t` is the
separate structure `uv_fs_t` below. -/
structure JSUVFSRequest where
  self : Nat
  promise_resolve : JSValue
  promise_reject : JSValue
  js_uv_ctx : Option JSUVContext
  buffer : Option Nat
  buffer_size : Nat
  deriving DecidableEq, Repr

/-- Operation kinds of a file request that the dispatcher distinguishes. -/
inductive uv_fs_type where
  | UV_FS_READ
  | UV_FS_WRITE
  | UV_FS_OPEN
  | UV_FS_STAT
  | UV_FS_OTHER
  deriving DecidableEq, Repr

/-- The fields of `uv_stat_t` that the binding reads: size and mode are
`uint64_t`, the seconds of the two times are `long`. -/
structure uv_stat_t where
  st_size : Nat
  st_mode : Nat
  st_mtim_sec : Int
  st_ctim_sec : Int
  deriving DecidableEq, Repr

/-- The fields of a completed `uv_fs_t` that the dispatcher reads: `data` is
the record it was issued for, `result` has C type `ssize_t`. -/
structure uv_fs_t where
  data : Option JSUVFSRequest
  result : Int
  fs_type : uv_fs_type
  statbuf : uv_stat_t
  deriving DecidableEq, Repr

/-! ## Promise helpers, error values -/

section Binding

-- The native error text, `uv_strerror` of libuv.
variable (uv_strerror : Int → String)

def js_uv_resolve (resolve value : JSValue) : Trace :=
  if !JS_IsUndefined resolve && !JS_IsNull resolve then [.JS_Call resolve [value]] else []

def js_uv_reject (reject error : JSValue) : Trace :=
  if !JS_IsUndefined reject && !JS_IsNull reject then [.JS_Call reject [error]] else []

/-- Error value with `code` and `message`; `msg = none` is the null pointer. -/
def js_uv_new_error (err_code : Int) (msg : Option String) : JSValue :=
  let error := JSValue.newError
  let error := JS_SetPropertyStr error "code" (JS_NewInt32 err_code)
  let error := JS_SetPropertyStr error "message"
    (JS_NewString (match msg with
      | some m => m
      | none => uv_strerror err_code))
  error

/-! ## File requests: completion dispatcher and cleanup -/

def js_uv_fs_req_cleanup (req : Option JSUVFSRequest) : Except Fault Trace :=
  match req with
  | none => .ok []
  | some req =>
    match req.js_uv_ctx with
    | none => .error .nullDereference
    | some _ =>
      .ok ([.JS_FreeValue req.promise_resolve, .JS_FreeValue req.promise_reject]
        ++ (match req.buffer with
            | some b => [.free b]
            | none => [])
        ++ [.free req.self])

/-- The success value the dispatcher builds for a completion; `heap` gives the
bytes stored at a native address. -/
def fs_result (heap : Nat → List Nat) (fs_req : JSUVFSRequest) (req : uv_fs_t) : JSValue :=
  match req.fs_type with
  | .UV_FS_READ =>
    match fs_req.buffer with
    | some b =>
      if req.result > 0 then JS_NewArrayBufferCopy (heap b) req.result.toNat
      else JS_NewArrayBuffer0
    | none => JS_NewArrayBuffer0
  | .UV_FS_WRITE => JS_NewInt64 req.result
  | .UV_FS_OPEN => JS_NewInt32 (toInt32 req.result)
  | .UV_FS_STAT =>
    let result := JSValue.newObject
    let st := req.statbuf
    let result := JS_SetPropertyStr result "size" (JS_NewInt64 (toInt64 st.st_size))
    let result := JS_SetPropertyStr result "mode" (JS_NewInt64 (toInt64 st.st_mode))
    let result := JS_SetPropertyStr result "mtime" (JS_NewInt64 st.st_mtim_sec)
    let result := JS_SetPropertyStr result "ctime" (JS_NewInt64 st.st_ctim_sec)
    result
  | .UV_FS_OTHER => .undefined

/-- The part of the dispatcher before the cleanup: settle the promise and drop
the temporary value. -/
def fs_settle (heap : Nat → List Nat) (fs_req : JSUVFSRequest) (req : uv_fs_t) : Trace :=
  if req.result < 0 then
    let error := js_uv_new_error uv_strerror (toInt32 req.result) none
    js_uv_reject fs_req.promise_reject error ++ [.JS_FreeValue error]
  else
    let result := fs_result heap fs_req req
    js_uv_resolve fs_req.promise_resolve result ++ [.JS_FreeValue result]

def js_uv_fs_cb (heap : Nat → List Nat) (req : uv_fs_t) : Except Fault Trace :=
  match req.data with
  | none => .ok []
  | some fs_req =>
    match fs_req.js_uv_ctx with
    | none => .error .nullDereference
    | some _ =>
      match js_uv_fs_req_cleanup (some fs_req) with
      | .error f => .error f
      | .ok cleanup => .ok (fs_settle uv_strerror heap fs_req req ++ cleanup)

/-! ## Script-facing file operations -/

/-- Return value and trace of a script-facing call.  `pending` is the record,
if any, that the call left with the event loop with `js_uv_fs_cb` registered as
completion callback. -/
structure CallResult where
  ret : JSValue
  trace : Trace
  pending : Option JSUVFSRequest
  deriving DecidableEq, Repr

/-- The object of the caller's frame that lies one `JSValue` past the local
`resolve`: the local `reject`, the local `data_len` (of `js_uv_fs_write`), or
storage the function does not read afterwards.  Frames in which another live
local lies there are not described. -/
inductive PastResolve where
  | reject
  | data_len
  | unread
  deriving DecidableEq, Repr

/-- What the collaborators answer during one call of `js_uv_fs_read` or
`js_uv_fs_write`.  `none` stands for a null pointer (or, for `promise`, for the
exception value).  `resolve` and `reject` are the indeterminate values the two
uninitialised locals hold before `js_uv_create_promise` is called.
`past_resolve` names the object the compiler placed one `JSValue` past the local
`resolve`; `clobbered_len` is the value `data_len` has after a `JSValue` was
stored over it. -/
structure FsEnv where
  filename : Option Nat
  data : Option Nat
  promise : Option Nat
  resolve : JSValue
  reject : JSValue
  past_resolve : PastResolve
  clobbered_len : Nat
  req : Option Nat
  uvctx : Option JSUVContext
  fd : Int
  stat_result : Int
  st_size : Nat
  buffer : Option Nat
  issue_result : Int
  deriving DecidableEq, Repr

/-- The engine call `JS_NewPromiseCapability(ctx, resolving_funcs)`: on success
it returns the promise and stores the resolve function in `resolving_funcs[0]`
and the reject function in `resolving_funcs[1]`; on failure it returns the
exception value and stores nothing.  The result is the returned value, the value
of `resolving_funcs[0]` afterwards, the value stored in `resolving_funcs[1]` if
any, and the trace. -/
def JS_NewPromiseCapability (answer : Option Nat) (resolving_funcs0 : JSValue) :
    JSValue × JSValue × Option JSValue × Trace :=
  match answer with
  | none => (.exception, resolving_funcs0, none, [])
  | some p => (.promise p, .resolveFn p, some (.rejectFn p), [.JS_NewPromiseCapability p])

/-- The call `js_uv_create_promise(ctx, &resolve, &reject)`.  It passes the
address of the single value `resolve` as `resolving_funcs`, so the engine's
store to `resolving_funcs[1]` goes one `JSValue` past `resolve`, and it stores
nothing through `reject`.  The result is the promise, the values of `*resolve`
and `*reject` after the call, the value stored past `resolve` if any, and the
trace. -/
def js_uv_create_promise (answer : Option Nat) (resolve reject : JSValue) :
    JSValue × JSValue × JSValue × Option JSValue × Trace :=
  match JS_NewPromiseCapability answer resolve with
  | (promise, resolve, past, t) =>
    if JS_IsException promise then (.exception, resolve, reject, past, t)
    else (promise, resolve, reject, past, t)

/-- The local `reject` of the caller after the store past `resolve`. -/
def rejectAfter (layout : PastResolve) (past : Option JSValue) (reject : JSValue) : JSValue :=
  match layout, past with
  | .reject, some v => v
  | _, _ => reject

/-- The local `data_len` of `js_uv_fs_write` after the store past `resolve`. -/
def lenAfter (layout : PastResolve) (past : Option JSValue) (clobbered data_len : Nat) : Nat :=
  match layout, past with
  | .data_len, some _ => clobbered
  | _, _ => data_len

/-- The text of a script string (`JS_ToCString`). -/
def cstringText : JSValue → String
  | .str s => s
  | _ => ""

/-- The `len` field of the `uv_buf_t` that `uv_buf_init(base, len)` returns.
libuv declares the function as `uv_buf_t uv_buf_init(char* base, unsigned int
len)`, so a `size_t` argument is converted to 32 bits on the way in. -/
def uv_buf_init (len : Nat) : Nat := len % 4294967296

/-- The buffer capacity `file_size` computed in `js_uv_fs_read` from the result
of the size probe `uv_fs_stat` and the size it reports. -/
def read_file_size (stat_result : Int) (st_size : Nat) : Nat :=
  let file_size : Nat := 0
  let file_size : Nat := if stat_result = 0 then st_size else file_size
  let file_size : Nat := if file_size = 0 then 4096 else file_size
  file_size

def js_uv_fs_read (env : FsEnv) (argv : List JSValue) : Except Fault CallResult :=
  if argv.length < 1 || !JS_IsString (argv.getD 0 .undefined) then
    .ok { ret := .exception, trace := [.JS_ThrowTypeError "filename required"], pending := none }
  else
    match env.filename with
    | none => .ok { ret := .exception, trace := [], pending := none }
    | some filename =>
      let path := cstringText (argv.getD 0 .undefined)
      match js_uv_create_promise env.promise env.resolve env.reject with
      | (promise, resolve, reject, past, tp) =>
        let reject := rejectAfter env.past_resolve past reject
        let t0 : Trace := [.JS_ToCString filename] ++ tp
        if JS_IsException promise then
          .ok { ret := .exception, trace := t0 ++ [.JS_FreeCString filename], pending := none }
        else
          match env.req with
          | none =>
            .ok { ret := .exception,
                  trace := t0 ++ [.JS_FreeCString filename, .JS_FreeValue resolve,
                    .JS_FreeValue reject, .JS_FreeValue promise, .JS_ThrowOutOfMemory],
                  pending := none }
          | some reqp =>
            let req : JSUVFSRequest :=
              { self := reqp, promise_resolve := resolve, promise_reject := reject,
                js_uv_ctx := env.uvctx, buffer := none, buffer_size := 0 }
            match req.js_uv_ctx with
            | none => .error .nullDereference
            | some _ =>
              let fd := env.fd
              let t1 : Trace := t0 ++ [.calloc reqp, .uv_fs_open reqp path "O_RDONLY"]
              if fd < 0 then
                let error := js_uv_new_error uv_strerror fd none
                match js_uv_fs_req_cleanup (some req) with
                | .error f => .error f
                | .ok cleanup =>
                  .ok { ret := promise,
                        trace := t1 ++ js_uv_reject reject error
                          ++ [.JS_FreeValue error, .JS_FreeCString filename] ++ cleanup,
                        pending := none }
              else
                let file_size := read_file_size env.stat_result env.st_size
                let t2 : Trace := t1 ++ [.uv_fs_stat path]
                match env.buffer with
                | none =>
                  .ok { ret := .exception,
                        trace := t2 ++ [.uv_fs_close fd, .JS_FreeCString filename,
                          .JS_FreeValue resolve, .JS_FreeValue reject, .JS_FreeValue promise,
                          .free reqp, .JS_ThrowOutOfMemory],
                        pending := none }
                | some buffer =>
                  let req : JSUVFSRequest :=
                    { req with buffer := some buffer, buffer_size := file_size }
                  let read_result := env.issue_result
                  let t3 : Trace :=
                    t2 ++ [.malloc buffer (.bytes file_size), .uv_fs_read reqp fd buffer (uv_buf_init file_size)]
                  if read_result < 0 then
                    let error := js_uv_new_error uv_strerror read_result none
                    match js_uv_fs_req_cleanup (some req) with
                    | .error f => .error f
                    | .ok cleanup =>
                      .ok { ret := promise,
                            trace := t3 ++ js_uv_reject reject error
                              ++ [.JS_FreeValue error, .JS_FreeCString filename] ++ cleanup,
                            pending := none }
                  else
                    .ok { ret := promise, trace := t3 ++ [.JS_FreeCString filename],
                          pending := some req }

/-- The statement `if (JS_IsString(argv[1])) JS_FreeCString(ctx, data);`. -/
def freeData (payload : JSValue) (data : Nat) : Trace :=
  if JS_IsString payload then [.JS_FreeCString data] else []

/-- Byte length of the payload (`data_len`). -/
def payloadLength : JSValue → Nat
  | .str s => s.utf8ByteSize
  | .arrayBuffer bytes => bytes.length
  | _ => 0

/-- The local `reject` of a call whose promise `p` was created. -/
def rejectLocal (env : FsEnv) (p : Nat) : JSValue :=
  rejectAfter env.past_resolve (some (.rejectFn p)) env.reject

/-- The local `data_len` of a `js_uv_fs_write` call whose promise was created. -/
def writeLength (env : FsEnv) (p : Nat) (payload : JSValue) : Nat :=
  lenAfter env.past_resolve (some (.rejectFn p)) env.clobbered_len (payloadLength payload)

def js_uv_fs_write (env : FsEnv) (argv : List JSValue) : Except Fault CallResult :=
  if argv.length < 2 || !JS_IsString (argv.getD 0 .undefined) then
    .ok { ret := .exception, trace := [.JS_ThrowTypeError "filename and data required"],
          pending := none }
  else
    match env.filename with
    | none => .ok { ret := .exception, trace := [], pending := none }
    | some filename =>
      let path := cstringText (argv.getD 0 .undefined)
      let payload := argv.getD 1 .undefined
      if !JS_IsString payload && !JS_IsArrayBuffer payload then
        .ok { ret := .exception,
              trace := [.JS_ToCString filename, .JS_FreeCString filename,
                .JS_ThrowTypeError "data must be string or ArrayBuffer"],
              pending := none }
      else
        match env.data with
        | none =>
          .ok { ret := .exception,
                trace := [.JS_ToCString filename, .JS_FreeCString filename], pending := none }
        | some data =>
          let data_len := payloadLength payload
          let td : Trace := if JS_IsString payload then [.JS_ToCString data] else []
          match js_uv_create_promise env.promise env.resolve env.reject with
          | (promise, resolve, reject, past, tp) =>
            let reject := rejectAfter env.past_resolve past reject
            let data_len := lenAfter env.past_resolve past env.clobbered_len data_len
            let t0 : Trace := [.JS_ToCString filename] ++ td ++ tp
            if JS_IsException promise then
              .ok { ret := .exception,
                    trace := t0 ++ [.JS_FreeCString filename] ++ freeData payload data,
                    pending := none }
            else
              match env.req with
              | none =>
                .ok { ret := .exception,
                      trace := t0 ++ [.JS_FreeCString filename] ++ freeData payload data
                        ++ [.JS_FreeValue resolve, .JS_FreeValue reject, .JS_FreeValue promise,
                            .JS_ThrowOutOfMemory],
                      pending := none }
              | some reqp =>
                let req : JSUVFSRequest :=
                  { self := reqp, promise_resolve := resolve, promise_reject := reject,
                    js_uv_ctx := env.uvctx, buffer := none, buffer_size := 0 }
                match req.js_uv_ctx with
                | none => .error .nullDereference
                | some _ =>
                  let fd := env.fd
                  let t1 : Trace :=
                    t0 ++ [.calloc reqp, .uv_fs_open reqp path "O_WRONLY | O_CREAT | O_TRUNC"]
                  if fd < 0 then
                    let error := js_uv_new_error uv_strerror fd none
                    match js_uv_fs_req_cleanup (some req) with
                    | .error f => .error f
                    | .ok cleanup =>
                      .ok { ret := promise,
                            trace := t1 ++ js_uv_reject reject error
                              ++ [.JS_FreeValue error, .JS_FreeCString filename]
                              ++ freeData payload data ++ cleanup,
                            pending := none }
                  else
                    let write_result := env.issue_result
                    let t2 : Trace := t1 ++ [.uv_fs_write reqp fd data (uv_buf_init data_len)]
                    if write_result < 0 then
                      let error := js_uv_new_error uv_strerror write_result none
                      match js_uv_fs_req_cleanup (some req) with
                      | .error f => .error f
                      | .ok cleanup =>
                        .ok { ret := promise,
                              trace := t2 ++ js_uv_reject reject error
                                ++ [.JS_FreeValue error, .JS_FreeCString filename]
                                ++ freeData payload data ++ cleanup,
                              pending := none }
                    else
                      .ok { ret := promise,
                            trace := t2 ++ [.JS_FreeCString filename] ++ freeData payload data,
                            pending := some req }

/-! ## TCP server -/

/-- The struct `JSUVTCPServer`; `self` is the address of the record. -/
structure JSUVTCPServer where
  self : Nat
  callback : JSValue
  tcp_handle : Option Nat
  js_uv_ctx : Option JSUVContext
  deriving DecidableEq, Repr

/-- The listening stream a connection event is delivered on: its address and
its `data` pointer. -/
structure uv_stream_t where
  handle : Nat
  data : Option JSUVTCPServer
  deriving DecidableEq, Repr

/-- Address family stored by `uv_tcp_getpeername`. -/
inductive ss_family where
  | AF_INET
  | AF_INET6
  | AF_OTHER
  deriving DecidableEq, Repr

/-- What the collaborators answer during one connection event: the `malloc`
for the client socket, `uv_accept`, `uv_tcp_getpeername` with the family it
stores, the text `uv_ip4_name` / `uv_ip6_name` write for the stored address and
the port `ntohs` yields for it.  `ip_uninit` is the indeterminate content of the
local array `ip`, which has no initialiser. -/
structure ConnEnv where
  client : Option Nat
  accept_result : Int
  getpeername_result : Int
  family : ss_family
  ip_name : String
  port : Nat
  ip_uninit : String
  deriving DecidableEq, Repr

/-- The call `JS_NewStringFormat(ctx, "%s:%d", ip, port)`. -/
def formatFrom (ip : String) (port : Nat) : JSValue :=
  .str (ip ++ ":" ++ toString port)

/-- The connection descriptor handed to the host callback. -/
def connectionObject (ip : String) (port : Nat) : JSValue :=
  let conn_obj := JSValue.newObject
  let conn_obj := JS_SetPropertyStr conn_obj "type" (JS_NewString "connection")
  let conn_obj := JS_SetPropertyStr conn_obj "from" (formatFrom ip port)
  conn_obj

/-- Values of the locals `ip` and `port` after the peer-name lookup. -/
def peerName (env : ConnEnv) : String × Nat :=
  if env.getpeername_result = 0 then
    match env.family with
    | .AF_INET => (env.ip_name, env.port)
    | .AF_INET6 => (env.ip_name, env.port)
    | .AF_OTHER => (env.ip_uninit, 0)
  else (env.ip_uninit, 0)

def js_uv_tcp_connection_cb (server : uv_stream_t) (status : Int) (env : ConnEnv) :
    Except Fault Trace :=
  match server.data with
  | none => .ok []
  | some tcp_server =>
    match tcp_server.js_uv_ctx with
    | none => .error .nullDereference
    | some _ =>
      if status < 0 then
        let error := js_uv_new_error uv_strerror status none
        .ok ((if !JS_IsUndefined tcp_server.callback then
                [.JS_Call tcp_server.callback [error]] else [])
              ++ [.JS_FreeValue error])
      else
        match env.client with
        | none => .ok []
        | some client =>
          let t : Trace :=
            [.malloc client (.sizeof "uv_tcp_t"), .uv_tcp_init client,
             .uv_accept server.handle client]
          if env.accept_result = 0 then
            match peerName env with
            | (ip, port) =>
              let conn_obj := connectionObject ip port
              .ok (t ++ (if !JS_IsUndefined tcp_server.callback then
                          [.JS_Call tcp_server.callback [conn_obj], .JS_FreeValue conn_obj]
                         else [])
                    ++ [.uv_close client])
          else
            .ok (t ++ [.uv_close client, .free client])

/-- Delivery of a finite sequence of connection events to one listening
stream; each event comes with its status and the collaborators' answers. -/
def deliverConnections (server : uv_stream_t) : List (Int × ConnEnv) → Except Fault Trace
  | [] => .ok []
  | (status, env) :: rest =>
    match js_uv_tcp_connection_cb uv_strerror server status env with
    | .error f => .error f
    | .ok t =>
      match deliverConnections server rest with
      | .error f => .error f
      | .ok ts => .ok (t ++ ts)

/-- The call `JS_ToInt32(ctx, &port, v)` on a value that passed `JS_IsNumber`. -/
def JS_ToInt32 : JSValue → Option Int
  | .int n => some (toInt32 n)
  | _ => none

/-- What the collaborators answer during `js_uv_tcp_create_server`. -/
structure TcpEnv where
  tcp_server : Option Nat
  uvctx : Option JSUVContext
  tcp_handle : Option Nat
  bind_result : Int
  listen_result : Int
  deriving DecidableEq, Repr

/-- Return value and trace of `js_uv_tcp_create_server`; `listening` is the
server record left with the event loop, if any. -/
structure ServerResult where
  ret : JSValue
  trace : Trace
  listening : Option JSUVTCPServer
  deriving DecidableEq, Repr

def js_uv_tcp_create_server (env : TcpEnv) (argv : List JSValue) : Except Fault ServerResult :=
  if argv.length < 2 || !JS_IsNumber (argv.getD 0 .undefined)
      || !JS_IsFunction (argv.getD 1 .undefined) then
    .ok { ret := .exception, trace := [.JS_ThrowTypeError "port and callback required"],
          listening := none }
  else
    match JS_ToInt32 (argv.getD 0 .undefined) with
    | none => .ok { ret := .exception, trace := [], listening := none }
    | some port =>
      let callback := argv.getD 1 .undefined
      let t0 : Trace := [.JS_DupValue callback]
      match env.tcp_server with
      | none =>
        .ok { ret := .exception, trace := t0 ++ [.JS_FreeValue callback, .JS_ThrowOutOfMemory],
              listening := none }
      | some self =>
        let t1 : Trace := t0 ++ [.calloc self]
        match env.tcp_handle with
        | none =>
          .ok { ret := .exception,
                trace := t1 ++ [.JS_FreeValue callback, .free self, .JS_ThrowOutOfMemory],
                listening := none }
        | some handle =>
          let tcp_server : JSUVTCPServer :=
            { self := self, callback := callback, tcp_handle := some handle,
              js_uv_ctx := env.uvctx }
          match tcp_server.js_uv_ctx with
          | none => .error .nullDereference
          | some _ =>
            let t2 : Trace :=
              t1 ++ [.malloc handle (.sizeof "uv_tcp_t"), .uv_tcp_init handle,
                     .uv_tcp_bind handle port]
            if env.bind_result < 0 then
              .ok { ret := .exception,
                    trace := t2 ++ [.JS_FreeValue callback, .free handle, .free self,
                      .JS_ThrowTypeError (uv_strerror env.bind_result)],
                    listening := none }
            else
              let t3 : Trace := t2 ++ [.uv_listen handle 128]
              if env.listen_result < 0 then
                .ok { ret := .exception,
                      trace := t3 ++ [.JS_FreeValue callback, .free handle, .free self,
                        .JS_ThrowTypeError (uv_strerror env.listen_result)],
                      listening := none }
              else
                let server_obj := JSValue.newObject
                let server_obj := JS_SetPropertyStr server_obj "port" (JS_NewInt32 port)
                let server_obj := JS_SetPropertyStr server_obj "close" (.cfunction "close")
                .ok { ret := server_obj, trace := t3, listening := some tcp_server }

end Binding

/-! ## Timers -/

/-- The struct `JSUVTimer`; `self` is the address of the record. -/
structure JSUVTimer where
  self : Nat
  callback : JSValue
  timer_handle : Option Nat
  js_uv_ctx : Option JSUVContext
  deriving DecidableEq, Repr

/-- A native timer handle as the timer callback sees it: its address and its
`data` pointer. -/
structure uv_timer_t where
  handle : Nat
  data : Option JSUVTimer
  deriving DecidableEq, Repr

def js_uv_timer_cleanup (timer : Option JSUVTimer) : Except Fault Trace :=
  match timer with
  | none => .ok []
  | some timer =>
    match timer.js_uv_ctx with
    | none => .error .nullDereference
    | some _ =>
      .ok ([.JS_FreeValue timer.callback]
        ++ (match timer.timer_handle with
            | some h => [.free h]
            | none => [])
        ++ [.free timer.self])

/-- The timer callback.  `call_result` is what the host callback returns
through `JS_Call` (a value, or the exception value when it throws); the C code
discards it. -/
def js_uv_timer_cb (handle : uv_timer_t) (call_result : JSValue) : Except Fault Trace :=
  match handle.data with
  | none => .ok []
  | some timer =>
    match timer.js_uv_ctx with
    | none => .error .nullDereference
    | some _ =>
      let invoke : Trace :=
        if !JS_IsUndefined timer.callback then [.JS_Call timer.callback []] else []
      let _discarded : JSValue := call_result
      match js_uv_timer_cleanup (some timer) with
      | .error f => .error f
      | .ok cleanup => .ok (invoke ++ [.uv_timer_stop handle.handle] ++ cleanup)

/-- What the collaborators answer during `js_uv_set_timeout`: the context
lookup, the `calloc` of the record and the `malloc` of the native handle. -/
structure TimerEnv where
  uvctx : Option JSUVContext
  timer : Option Nat
  timer_handle : Option Nat
  deriving DecidableEq, Repr

/-- Return value and trace of `js_uv_set_timeout`; `started` is the native
handle left running in the event loop, if any. -/
structure TimerResult where
  ret : JSValue
  trace : Trace
  started : Option uv_timer_t
  deriving DecidableEq, Repr

/-- Conversion of an `int` to the `uint64_t` parameters of `uv_timer_start`. -/
def toUInt64 (x : Int) : Int := x % 18446744073709551616

/-- The checked context lookup `!js_uv_ctx || !js_uv_ctx->loop` of
`js_uv_set_timeout`, `js_uv_run` and `js_uv_stop`: the loop when both pointers
are set. -/
def availableLoop (js_uv_ctx : Option JSUVContext) : Option Nat :=
  match js_uv_ctx with
  | none => none
  | some c => c.loop

def js_uv_set_timeout (env : TimerEnv) (argv : List JSValue) : Except Fault TimerResult :=
  if argv.length < 2 || !JS_IsFunction (argv.getD 0 .undefined)
      || !JS_IsNumber (argv.getD 1 .undefined) then
    .ok { ret := .exception, trace := [.JS_ThrowTypeError "callback and timeout required"],
          started := none }
  else
    let callback := argv.getD 0 .undefined
    let t0 : Trace := [.JS_DupValue callback]
    match JS_ToInt32 (argv.getD 1 .undefined) with
    | none => .ok { ret := .exception, trace := t0 ++ [.JS_FreeValue callback], started := none }
    | some timeout =>
      match availableLoop env.uvctx with
      | none =>
        .ok { ret := .exception,
              trace := t0 ++ [.JS_FreeValue callback,
                .JS_ThrowTypeError "No event loop available"],
              started := none }
      | some _ =>
        match env.timer with
        | none =>
          .ok { ret := .exception,
                trace := t0 ++ [.JS_FreeValue callback, .JS_ThrowOutOfMemory],
                started := none }
        | some self =>
          let t1 : Trace := t0 ++ [.calloc self]
          match env.timer_handle with
          | none =>
            .ok { ret := .exception,
                  trace := t1 ++ [.JS_FreeValue callback, .free self, .JS_ThrowOutOfMemory],
                  started := none }
          | some handle =>
            let timer : JSUVTimer :=
              { self := self, callback := callback, timer_handle := some handle,
                js_uv_ctx := env.uvctx }
            .ok { ret := JS_NewInt32 (toInt32 self),
                  trace := t1 ++ [.malloc handle (.sizeof "uv_timer_t"), .uv_timer_init handle,
                    .uv_timer_start handle (toUInt64 timeout) 0],
                  started := some { handle := handle, data := some timer } }

/-- Effect of one call on the set of running timers: `uv_timer_start` adds the
handle, `uv_timer_stop` removes it. -/
def timerStep (active : List Nat) : Event → List Nat
  | .uv_timer_start h _ _ => h :: active
  | .uv_timer_stop h => active.filter (fun x => x != h)
  | _ => active

/-- Timers that are started and not stopped after a history of calls (in the
order they were made). -/
def activeTimers (past : Trace) : List Nat := past.foldl timerStep []

/-- The event loop looking at a timer handle `attempts` times after the calls
`past`: it runs the timer callback only while the handle is a running timer
(libuv, which also stops a timer without repeat interval by itself, runs it no
more often than that).  The result is `past` extended by the calls of the
callbacks that ran. -/
def fireTimer (handle : uv_timer_t) (call_result : JSValue) :
    Nat → Trace → Except Fault Trace
  | 0, past => .ok past
  | n + 1, past =>
    if handle.handle ∈ activeTimers past then
      match js_uv_timer_cb handle call_result with
      | .error f => .error f
      | .ok t => fireTimer handle call_result n (past ++ t)
    else fireTimer handle call_result n past

/-! ## Loop control -/

/-- What the collaborators answer during `js_uv_run` and `js_uv_stop`. -/
structure LoopEnv where
  uvctx : Option JSUVContext
  run_result : Int
  deriving DecidableEq, Repr

def js_uv_run (env : LoopEnv) : Except Fault CallResult :=
  match availableLoop env.uvctx with
  | none =>
    .ok { ret := .exception, trace := [.JS_ThrowTypeError "No event loop available"],
          pending := none }
  | some loop =>
    let result := env.run_result
    .ok { ret := JS_NewInt32 result, trace := [.uv_run loop], pending := none }

def js_uv_stop (env : LoopEnv) : Except Fault CallResult :=
  match availableLoop env.uvctx with
  | none =>
    .ok { ret := .exception, trace := [.JS_ThrowTypeError "No event loop available"],
          pending := none }
  | some loop => .ok { ret := .undefined, trace := [.uv_stop loop], pending := none }

/-! ## The first version of the binding (`quickjs-libuv.c`): completion dispatcher -/

namespace V1

/-- The struct `JSUVFSRequest` of `quickjs-libuv.c`. -/
structure JSUVFSRequest where
  self : Nat
  callback : JSValue
  promise : JSValue
  js_uv_ctx : Option JSUVContext
  deriving DecidableEq, Repr

/-- The fields of a completed `uv_fs_t` that the dispatcher of `quickjs-libuv.c`
reads; `ptr` is the address in `req->ptr` (`none` for null). -/
structure uv_fs_t where
  data : Option JSUVFSRequest
  result : Int
  fs_type : uv_fs_type
  ptr : Option Nat
  statbuf : uv_stat_t
  deriving DecidableEq, Repr

/-- Property lookup `JS_GetPropertyStr`: a missing property reads as undefined. -/
def JS_GetPropertyStr (obj : JSValue) (key : String) : JSValue :=
  (obj.getProp key).getD .undefined

def js_uv_resolve_promise (promise value : JSValue) : Trace :=
  let resolve_func := JS_GetPropertyStr promise "resolve"
  (if !JS_IsUndefined resolve_func then [.JS_Call resolve_func [value]] else [])
    ++ [.JS_FreeValue resolve_func]

def js_uv_reject_promise (promise error : JSValue) : Trace :=
  let reject_func := JS_GetPropertyStr promise "reject"
  (if !JS_IsUndefined reject_func then [.JS_Call reject_func [error]] else [])
    ++ [.JS_FreeValue reject_func]

/-- The success value the dispatcher of `quickjs-libuv.c` builds.  Copying a
positive number of bytes from a null `req->ptr` is a fault. -/
def fs_result (heap : Nat → List Nat) (req : uv_fs_t) : Except Fault JSValue :=
  match req.fs_type with
  | .UV_FS_READ =>
    match req.ptr with
    | some a => .ok (JS_NewArrayBufferCopy (heap a) req.result.toNat)
    | none =>
      if req.result.toNat = 0 then .ok (JS_NewArrayBufferCopy [] 0)
      else .error .nullDereference
  | .UV_FS_WRITE => .ok (JS_NewInt64 req.result)
  | .UV_FS_STAT =>
    let result := JSValue.newObject
    let st := req.statbuf
    let result := JS_SetPropertyStr result "size" (JS_NewInt64 (toInt64 st.st_size))
    let result := JS_SetPropertyStr result "mode" (JS_NewInt64 (toInt64 st.st_mode))
    let result := JS_SetPropertyStr result "mtime" (JS_NewInt64 st.st_mtim_sec)
    .ok result
  | _ => .ok .undefined

def js_uv_fs_cb (uv_strerror : Int → String) (heap : Nat → List Nat) (req : uv_fs_t) :
    Except Fault Trace :=
  match req.data with
  | none => .ok []
  | some fs_req =>
    match fs_req.js_uv_ctx with
    | none => .error .nullDereference
    | some _ =>
      let cleanup : Trace :=
        [.JS_FreeValue fs_req.callback, .JS_FreeValue fs_req.promise, .free fs_req.self]
      if req.result < 0 then
        let error := JSValue.newError
        let error := JS_SetPropertyStr error "message"
          (JS_NewString (uv_strerror (toInt32 req.result)))
        .ok (js_uv_reject_promise fs_req.promise error ++ [.JS_FreeValue error] ++ cleanup)
      else
        match fs_result heap req with
        | .error f => .error f
        | .ok result =>
          .ok (js_uv_resolve_promise fs_req.promise result ++ [.JS_FreeValue result]
            ++ cleanup)

end V1

/-- An excerpt of libuv's error-text table, for evaluating the binding on
concrete inputs. -/
def uv_strerror_sample (code : Int) : String :=
  if code = -2 then "no such file or directory"
  else if code = -13 then "permission denied"
  else if code = -98 then "address already in use"
  else if code = -107 then "socket is not connected"
  else "unknown system error"

/-! ## Sample inputs -/

def sampleContext : JSUVContext := { rt := 1, ctx := 2, loop := some 3, ref_count := 0 }

/-- A read record for promise 1 with a three-byte buffer at address 400. -/
def sampleRecord : JSUVFSRequest :=
  { self := 300, promise_resolve := .resolveFn 1, promise_reject := .rejectFn 1,
    js_uv_ctx := some sampleContext, buffer := some 400, buffer_size := 3 }

/-- Native memory in which the block at address 400 holds the bytes 104, 105, 33. -/
def sampleHeap (addr : Nat) : List Nat := if addr = 400 then [104, 105, 33] else []

/-- A completion of `sampleRecord` with the given result and kind. -/
def sampleCompletion (result : Int) (fs_type : uv_fs_type) : uv_fs_t :=
  { data := some sampleRecord, result := result, fs_type := fs_type,
    statbuf := { st_size := 3, st_mode := 33188, st_mtim_sec := 1700000000,
                 st_ctim_sec := 1700000001 } }

/-- Answers under which a read or write of promise 1 is issued: record at
address 300, descriptor 5, a three-byte file, buffer at address 400. -/
def sampleFsEnv : FsEnv :=
  { filename := some 100, data := some 200, promise := some 1,
    resolve := .undefined, reject := .rejectFn 1, past_resolve := .unread,
    clobbered_len := 0, req := some 300,
    uvctx := some sampleContext, fd := 5, stat_result := 0, st_size := 3,
    buffer := some 400, issue_result := 0 }

/-- A server record at address 20 with host callback 7, listening on the
stream at address 10. -/
def sampleServer : JSUVTCPServer :=
  { self := 20, callback := .func 7, tcp_handle := some 10, js_uv_ctx := some sampleContext }

def sampleStream : uv_stream_t := { handle := 10, data := some sampleServer }

/-- A connection from 192.0.2.7 port 5000, accepted into the socket at address
50, whose peer name is looked up successfully. -/
def sampleConnEnv : ConnEnv :=
  { client := some 50, accept_result := 0, getpeername_result := 0, family := .AF_INET,
    ip_name := "192.0.2.7", port := 5000, ip_uninit := "" }

def sampleTcpEnv : TcpEnv :=
  { tcp_server := some 20, uvctx := some sampleContext, tcp_handle := some 10,
    bind_result := 0, listen_result := 0 }

/-- Answers under which `js_uv_set_timeout` creates a timer: record at address
600, native handle at address 700. -/
def sampleTimerEnv : TimerEnv :=
  { uvctx := some sampleContext, timer := some 600, timer_handle := some 700 }

/-- A stat completion delivered to the dispatcher of `quickjs-libuv.c`. -/
def sampleStatV1 : V1.uv_fs_t :=
  { data := some { self := 300, callback := .undefined, promise := .promise 1,
                   js_uv_ctx := some sampleContext },
    result := 0, fs_type := .UV_FS_STAT, ptr := none,
    statbuf := { st_size := 3, st_mode := 33188, st_mtim_sec := 1700000000,
                 st_ctim_sec := 1700000001 } }

/-! ## Specification predicates -/

/-- The record at `reqp`, its buffer and its settlement values `resolve` and
`reject` are released exactly once over the call and the completion `done` that
follows it: either by the call, which then leaves no record with the loop, or by
the dispatcher run on the record the call left pending.  The blocks freed are
exactly the blocks the call allocated; besides `resolve` and `reject` the only
values released are values that are no functions. -/
def ReleasedExactlyOnce (uv_strerror : Int → String) (heap : Nat → List Nat)
    (call : Except Fault CallResult) (done : uv_fs_t) (reqp : Nat)
    (resolve reject : JSValue) : Prop :=
  ∃ r, call = .ok r ∧ reqp ∈ allocatedBlocks r.trace ∧
    ((r.pending = none ∧
        freedBlocks r.trace = (allocatedBlocks r.trace).reverse ∧
        ∃ pre post, freedValues r.trace = pre ++ [resolve, reject] ++ post ∧
          ∀ v ∈ pre ++ post, JS_IsFunction v = false) ∨
     (∃ fs_req t value, r.pending = some fs_req ∧ fs_req.self = reqp ∧
        fs_req.promise_resolve = resolve ∧ fs_req.promise_reject = reject ∧
        freedBlocks r.trace = [] ∧ freedValues r.trace = [] ∧
        js_uv_fs_cb uv_strerror heap { done with data := some fs_req } = .ok t ∧
        freedBlocks t = (allocatedBlocks r.trace).reverse ∧
        JS_IsFunction value = false ∧ freedValues t = [value, resolve, reject]))

/-! # Properties -/

end QuickJSLibuv

namespace QuickJSLibuv

/-! ## Helper lemmas on traces -/

theorem calls_append (s t : Trace) : calls (s ++ t) = calls s ++ calls t := by
  induction s with
  | nil => rfl
  | cons e s ih => cases e <;> simp [calls, ih]

theorem freedValues_append (s t : Trace) :
    freedValues (s ++ t) = freedValues s ++ freedValues t := by
  induction s with
  | nil => rfl
  | cons e s ih => cases e <;> simp [freedValues, ih]

theorem freedBlocks_append (s t : Trace) :
    freedBlocks (s ++ t) = freedBlocks s ++ freedBlocks t := by
  induction s with
  | nil => rfl
  | cons e s ih => cases e <;> simp [freedBlocks, ih]

theorem allocatedBlocks_append (s t : Trace) :
    allocatedBlocks (s ++ t) = allocatedBlocks s ++ allocatedBlocks t := by
  induction s with
  | nil => rfl
  | cons e s ih => cases e <;> simp [allocatedBlocks, ih]

theorem typeErrors_append (s t : Trace) :
    typeErrors (s ++ t) = typeErrors s ++ typeErrors t := by
  induction s with
  | nil => rfl
  | cons e s ih => cases e <;> simp [typeErrors, ih]

theorem dupValues_append (s t : Trace) : dupValues (s ++ t) = dupValues s ++ dupValues t := by
  induction s with
  | nil => rfl
  | cons e s ih => cases e <;> simp [dupValues, ih]

theorem createdPromises_append (s t : Trace) :
    createdPromises (s ++ t) = createdPromises s ++ createdPromises t := by
  induction s with
  | nil => rfl
  | cons e s ih => cases e <;> simp [createdPromises, ih]

/-- A function value is neither undefined nor null, so `js_uv_resolve` and
`js_uv_reject` call it. -/
theorem js_uv_resolve_function (f v : JSValue) (hf : JS_IsFunction f = true) :
    js_uv_resolve f v = [.JS_Call f [v]] := by
  cases f <;> simp_all [js_uv_resolve, JS_IsFunction, JS_IsUndefined, JS_IsNull]

theorem js_uv_reject_function (f v : JSValue) (hf : JS_IsFunction f = true) :
    js_uv_reject f v = [.JS_Call f [v]] := by
  cases f <;> simp_all [js_uv_reject, JS_IsFunction, JS_IsUndefined, JS_IsNull]

theorem js_uv_new_error_not_function (uv_strerror : Int → String) (code : Int)
    (msg : Option String) : JS_IsFunction (js_uv_new_error uv_strerror code msg) = false := by
  simp [js_uv_new_error, JS_SetPropertyStr, JS_IsFunction]

theorem JS_NewInt64_not_function (v : Int) : JS_IsFunction (JS_NewInt64 v) = false := by
  unfold JS_NewInt64
  split <;> rfl

/-- Below 2^53 in magnitude `JS_NewInt64` keeps the exact integer. -/
theorem JS_NewInt64_exact (v : Int) (hlo : -9007199254740992 < v) (hhi : v < 9007199254740992) :
    JS_NewInt64 v = .int v := by
  unfold JS_NewInt64
  split
  · rfl
  · have hn : v.natAbs < 9007199254740992 := by omega
    simp [int64ToDouble, hn]

theorem fs_result_not_function (heap : Nat → List Nat) (fs_req : JSUVFSRequest) (req : uv_fs_t) :
    JS_IsFunction (fs_result heap fs_req req) = false := by
  unfold fs_result
  cases req.fs_type <;> simp only []
  · cases fs_req.buffer <;> simp only []
    · rfl
    · split <;> rfl
  · exact JS_NewInt64_not_function _
  all_goals rfl

theorem js_uv_fs_req_cleanup_ok (fs_req : JSUVFSRequest) (c : JSUVContext)
    (hctx : fs_req.js_uv_ctx = some c) :
    js_uv_fs_req_cleanup (some fs_req) =
      .ok ([.JS_FreeValue fs_req.promise_resolve, .JS_FreeValue fs_req.promise_reject]
        ++ (match fs_req.buffer with
            | some b => [.free b]
            | none => [])
        ++ [.free fs_req.self]) := by
  simp [js_uv_fs_req_cleanup, hctx]

theorem js_uv_fs_cb_ok (uv_strerror : Int → String) (heap : Nat → List Nat) (req : uv_fs_t)
    (fs_req : JSUVFSRequest) (c : JSUVContext) (cleanup : Trace)
    (hdata : req.data = some fs_req) (hctx : fs_req.js_uv_ctx = some c)
    (hclean : js_uv_fs_req_cleanup (some fs_req) = .ok cleanup) :
    js_uv_fs_cb uv_strerror heap req = .ok (fs_settle uv_strerror heap fs_req req ++ cleanup) := by
  simp [js_uv_fs_cb, hdata, hctx, hclean]

/-! ## The completion dispatcher -/

/-- C2: on a record whose resolve and reject are functions, the dispatcher
`js_uv_fs_cb` makes exactly one host call, to reject when the native result is
negative and to resolve otherwise, with one argument; it then releases that
argument (which is no function) and runs `js_uv_fs_req_cleanup`, whose
`JS_FreeValue` calls are exactly one for resolve and one for reject. -/
theorem js_uv_fs_cb_settles_exactly_once (uv_strerror : Int → String) (heap : Nat → List Nat)
    (req : uv_fs_t) (fs_req : JSUVFSRequest) (c : JSUVContext)
    (hdata : req.data = some fs_req) (hctx : fs_req.js_uv_ctx = some c)
    (hres : JS_IsFunction fs_req.promise_resolve = true)
    (hrej : JS_IsFunction fs_req.promise_reject = true) :
    ∃ settle cleanup value,
      js_uv_fs_cb uv_strerror heap req = .ok (settle ++ cleanup) ∧
      js_uv_fs_req_cleanup (some fs_req) = .ok cleanup ∧
      calls (settle ++ cleanup) =
        [(if req.result < 0 then fs_req.promise_reject else fs_req.promise_resolve, [value])] ∧
      calls settle =
        [(if req.result < 0 then fs_req.promise_reject else fs_req.promise_resolve, [value])] ∧
      freedValues settle = [value] ∧
      JS_IsFunction value = false ∧
      freedValues cleanup = [fs_req.promise_resolve, fs_req.promise_reject] ∧
      freedValues (settle ++ cleanup) =
        [value, fs_req.promise_resolve, fs_req.promise_reject] := by
  have hclean := js_uv_fs_req_cleanup_ok fs_req c hctx
  have hcb := js_uv_fs_cb_ok uv_strerror heap req fs_req c _ hdata hctx hclean
  have hfc : freedValues ([Event.JS_FreeValue fs_req.promise_resolve,
        Event.JS_FreeValue fs_req.promise_reject]
        ++ (match fs_req.buffer with
            | some b => [Event.free b]
            | none => [])
        ++ [Event.free fs_req.self]) = [fs_req.promise_resolve, fs_req.promise_reject] := by
    cases fs_req.buffer <;> simp [freedValues]
  have hcc : calls ([Event.JS_FreeValue fs_req.promise_resolve,
        Event.JS_FreeValue fs_req.promise_reject]
        ++ (match fs_req.buffer with
            | some b => [Event.free b]
            | none => [])
        ++ [Event.free fs_req.self]) = [] := by
    cases fs_req.buffer <;> simp [calls]
  by_cases hneg : req.result < 0
  · refine ⟨_, _, js_uv_new_error uv_strerror (toInt32 req.result) none, hcb, hclean, ?_, ?_, ?_,
      js_uv_new_error_not_function _ _ _, hfc, ?_⟩
    · rw [calls_append, hcc]
      simp [fs_settle, hneg, js_uv_reject_function _ _ hrej, calls]
    · simp [fs_settle, hneg, js_uv_reject_function _ _ hrej, calls]
    · simp [fs_settle, hneg, js_uv_reject_function _ _ hrej, freedValues]
    · rw [freedValues_append, hfc]
      simp [fs_settle, hneg, js_uv_reject_function _ _ hrej, freedValues]
  · refine ⟨_, _, fs_result heap fs_req req, hcb, hclean, ?_, ?_, ?_,
      fs_result_not_function _ _ _, hfc, ?_⟩
    · rw [calls_append, hcc]
      simp [fs_settle, hneg, js_uv_resolve_function _ _ hres, calls]
    · simp [fs_settle, hneg, js_uv_resolve_function _ _ hres, calls]
    · simp [fs_settle, hneg, js_uv_resolve_function _ _ hres, freedValues]
    · rw [freedValues_append, hfc]
      simp [fs_settle, hneg, js_uv_resolve_function _ _ hres, freedValues]

/-- Witness for C2: a completion of the sample record with result -2 calls the
reject function once, a completion with result 2 the resolve function once. -/
theorem js_uv_fs_cb_settles_exactly_once_witness :
    (∃ t value, js_uv_fs_cb uv_strerror_sample sampleHeap (sampleCompletion (-2) .UV_FS_READ) = .ok t
      ∧ calls t = [(.rejectFn 1, [value])]
      ∧ freedValues t = [value, .resolveFn 1, .rejectFn 1]) ∧
    (∃ t value, js_uv_fs_cb uv_strerror_sample sampleHeap (sampleCompletion 2 .UV_FS_READ) = .ok t
      ∧ calls t = [(.resolveFn 1, [value])]
      ∧ freedValues t = [value, .resolveFn 1, .rejectFn 1]) := by
  constructor
  · obtain ⟨s, c, v, h1, -, h3, -, -, -, -, h8⟩ :=
      js_uv_fs_cb_settles_exactly_once uv_strerror_sample sampleHeap
        (sampleCompletion (-2) .UV_FS_READ) sampleRecord sampleContext rfl rfl rfl rfl
    exact ⟨s ++ c, v, h1, h3, h8⟩
  · obtain ⟨s, c, v, h1, -, h3, -, -, -, -, h8⟩ :=
      js_uv_fs_cb_settles_exactly_once uv_strerror_sample sampleHeap
        (sampleCompletion 2 .UV_FS_READ) sampleRecord sampleContext rfl rfl rfl rfl
    exact ⟨s ++ c, v, h1, h3, h8⟩

theorem toInt32_of_range (x : Int) (hlo : -2147483648 ≤ x) (hhi : x ≤ 2147483647) :
    toInt32 x = x := by
  unfold toInt32
  omega

/-- C4: for every negative native result `r` (a libuv error code, which is a C
`int`), on a record whose reject is a function, the dispatcher `js_uv_fs_cb`
rejects: its one host call is the call of the record's reject function with an
error value built by `js_uv_new_error` whose code property is `r` and whose
message property is the native error text of `r`; resolve is not invoked. -/
theorem js_uv_fs_cb_rejects_with_native_error (uv_strerror : Int → String)
    (heap : Nat → List Nat) (req : uv_fs_t) (fs_req : JSUVFSRequest) (c : JSUVContext)
    (hdata : req.data = some fs_req) (hctx : fs_req.js_uv_ctx = some c)
    (hrej : JS_IsFunction fs_req.promise_reject = true)
    (hneg : req.result < 0) (hfit : -2147483648 ≤ req.result) :
    ∃ error t,
      error = js_uv_new_error uv_strerror req.result none ∧
      error.getProp "code" = some (.int req.result) ∧
      error.getProp "message" = some (.str (uv_strerror req.result)) ∧
      js_uv_fs_cb uv_strerror heap req = .ok t ∧
      calls t = [(fs_req.promise_reject, [error])] ∧
      (fs_req.promise_resolve ≠ fs_req.promise_reject →
        ∀ call ∈ calls t, call.1 ≠ fs_req.promise_resolve) := by
  have hclean := js_uv_fs_req_cleanup_ok fs_req c hctx
  have hcb := js_uv_fs_cb_ok uv_strerror heap req fs_req c _ hdata hctx hclean
  have h32 : toInt32 req.result = req.result := toInt32_of_range _ hfit (by omega)
  have hcalls : calls (fs_settle uv_strerror heap fs_req req ++
      ([Event.JS_FreeValue fs_req.promise_resolve, Event.JS_FreeValue fs_req.promise_reject]
        ++ (match fs_req.buffer with
            | some b => [Event.free b]
            | none => [])
        ++ [Event.free fs_req.self])) =
      [(fs_req.promise_reject, [js_uv_new_error uv_strerror req.result none])] := by
    cases fs_req.buffer <;>
      simp [fs_settle, hneg, h32, js_uv_reject_function _ _ hrej, calls_append, calls]
  refine ⟨_, _, rfl, ?_, ?_, hcb, hcalls, ?_⟩
  · simp [js_uv_new_error, JS_SetPropertyStr, JSValue.getProp, JS_NewInt32]
  · simp [js_uv_new_error, JS_SetPropertyStr, JSValue.getProp, JS_NewString]
  · intro hne call hcall
    rw [hcalls] at hcall
    simp only [List.mem_singleton] at hcall
    subst hcall
    exact fun h => hne h.symm

/-- Witness for C4: result -2 (no such file or directory) on the sample record. -/
theorem js_uv_fs_cb_rejects_with_native_error_witness :
    ∃ error t,
      error.getProp "code" = some (.int (-2)) ∧
      error.getProp "message" = some (.str "no such file or directory") ∧
      js_uv_fs_cb uv_strerror_sample sampleHeap (sampleCompletion (-2) .UV_FS_WRITE) = .ok t ∧
      calls t = [(.rejectFn 1, [error])] := by
  obtain ⟨e, t, -, h1, h2, h3, h4, -⟩ :=
    js_uv_fs_cb_rejects_with_native_error uv_strerror_sample sampleHeap
      (sampleCompletion (-2) .UV_FS_WRITE) sampleRecord sampleContext rfl rfl rfl
      (by decide) (by decide)
  exact ⟨e, t, h1, h2, h3, h4⟩

/-- C5: for a read completion with native result `n ≥ 0` on a record whose
resolve is a function and whose buffer, if allocated, holds at least `n` bytes,
the dispatcher `js_uv_fs_cb` resolves with a byte buffer: its one host call is
the call of the record's resolve function with that buffer; when `n > 0` and a
buffer is allocated its bytes are the first `n` bytes of that buffer and its
length is exactly `n`; when `n = 0` or the record has no buffer it has length
zero. -/
theorem js_uv_fs_cb_read_result (uv_strerror : Int → String) (heap : Nat → List Nat)
    (req : uv_fs_t) (fs_req : JSUVFSRequest) (c : JSUVContext)
    (hdata : req.data = some fs_req) (hctx : fs_req.js_uv_ctx = some c)
    (hres : JS_IsFunction fs_req.promise_resolve = true)
    (hkind : req.fs_type = .UV_FS_READ) (hn : 0 ≤ req.result)
    (hfit : ∀ b, fs_req.buffer = some b → req.result.toNat ≤ (heap b).length) :
    ∃ bytes cleanup t,
      js_uv_fs_req_cleanup (some fs_req) = .ok cleanup ∧
      js_uv_fs_cb uv_strerror heap req = .ok t ∧
      t = [.JS_Call fs_req.promise_resolve [.arrayBuffer bytes],
           .JS_FreeValue (.arrayBuffer bytes)] ++ cleanup ∧
      calls t = [(fs_req.promise_resolve, [.arrayBuffer bytes])] ∧
      (∀ b, fs_req.buffer = some b → 0 < req.result →
        bytes = (heap b).take req.result.toNat ∧ (bytes.length : Int) = req.result) ∧
      (req.result = 0 ∨ fs_req.buffer = none → bytes = []) := by
  have hclean := js_uv_fs_req_cleanup_ok fs_req c hctx
  have hcb := js_uv_fs_cb_ok uv_strerror heap req fs_req c _ hdata hctx hclean
  have hnot : ¬ req.result < 0 := by omega
  have hcc : ∀ v : JSValue, calls ([Event.JS_Call fs_req.promise_resolve [v],
      Event.JS_FreeValue v] ++
      ([Event.JS_FreeValue fs_req.promise_resolve, Event.JS_FreeValue fs_req.promise_reject]
        ++ (match fs_req.buffer with
            | some b => [Event.free b]
            | none => [])
        ++ [Event.free fs_req.self])) = [(fs_req.promise_resolve, [v])] := by
    intro v
    cases fs_req.buffer <;> simp [calls]
  cases hb : fs_req.buffer with
  | none =>
    refine ⟨[], _, _, hclean, hcb, ?_, ?_, ?_, ?_⟩
    · simp [fs_settle, hnot, fs_result, hkind, hb, JS_NewArrayBuffer0,
        js_uv_resolve_function _ _ hres]
    · have := hcc (.arrayBuffer [])
      rw [hb] at this
      simpa [fs_settle, hnot, fs_result, hkind, hb, JS_NewArrayBuffer0,
        js_uv_resolve_function _ _ hres] using this
    · intro b h
      cases h
    · intro _
      rfl
  | some b =>
    by_cases hpos : 0 < req.result
    · refine ⟨(heap b).take req.result.toNat, _, _, hclean, hcb, ?_, ?_, ?_, ?_⟩
      · simp [fs_settle, hnot, fs_result, hkind, hb, hpos, JS_NewArrayBufferCopy,
          js_uv_resolve_function _ _ hres]
      · have := hcc (.arrayBuffer ((heap b).take req.result.toNat))
        rw [hb] at this
        simpa [fs_settle, hnot, fs_result, hkind, hb, hpos, JS_NewArrayBufferCopy,
          js_uv_resolve_function _ _ hres] using this
      · intro b1 h1 _
        cases h1
        refine ⟨rfl, ?_⟩
        have := hfit b hb
        rw [List.length_take, Nat.min_eq_left this]
        omega
      · intro h
        rcases h with h | h
        · omega
        · cases h
    · refine ⟨[], _, _, hclean, hcb, ?_, ?_, ?_, ?_⟩
      · simp [fs_settle, hnot, fs_result, hkind, hb, hpos, JS_NewArrayBuffer0,
          js_uv_resolve_function _ _ hres]
      · have := hcc (.arrayBuffer [])
        rw [hb] at this
        simpa [fs_settle, hnot, fs_result, hkind, hb, hpos, JS_NewArrayBuffer0,
          js_uv_resolve_function _ _ hres] using this
      · intro b1 _ h
        omega
      · intro _
        rfl

/-- Witness for C5: a read of two bytes into the sample record resolves with
the first two bytes of its buffer. -/
theorem js_uv_fs_cb_read_result_witness :
    ∃ cleanup t,
      js_uv_fs_cb uv_strerror_sample sampleHeap (sampleCompletion 2 .UV_FS_READ) = .ok t ∧
      t = [.JS_Call (.resolveFn 1) [.arrayBuffer [104, 105]],
           .JS_FreeValue (.arrayBuffer [104, 105])] ++ cleanup ∧
      calls t = [(.resolveFn 1, [.arrayBuffer [104, 105]])] := by
  obtain ⟨bytes, c, t, -, h2, h3, h4, h5, -⟩ :=
    js_uv_fs_cb_read_result uv_strerror_sample sampleHeap (sampleCompletion 2 .UV_FS_READ)
      sampleRecord sampleContext rfl rfl rfl rfl (by decide)
      (by intro b hb; cases hb; decide)
  obtain ⟨hbytes, -⟩ := h5 400 rfl (by decide)
  have hb2 : bytes = [104, 105] := by rw [hbytes]; rfl
  subst hb2
  exact ⟨c, t, h2, h3, h4⟩

/-! ## Paths through `js_uv_fs_read` and `js_uv_fs_write` -/

theorem js_uv_create_promise_some (p : Nat) (resolve reject : JSValue) :
    js_uv_create_promise (some p) resolve reject =
      (.promise p, .resolveFn p, reject, some (.rejectFn p), [.JS_NewPromiseCapability p]) := by
  simp [js_uv_create_promise, JS_NewPromiseCapability, JS_IsException]

theorem js_uv_fs_read_open_fails (uv_strerror : Int → String) (env : FsEnv)
    (path : JSValue) (rest : List JSValue) (fn p reqp : Nat) (c : JSUVContext)
    (hpath : JS_IsString path = true) (hfn : env.filename = some fn)
    (hp : env.promise = some p) (hreq : env.req = some reqp) (hctx : env.uvctx = some c)
    (hfd : env.fd < 0) :
    js_uv_fs_read uv_strerror env (path :: rest) =
      .ok { ret := .promise p,
            trace := [.JS_ToCString fn, .JS_NewPromiseCapability p, .calloc reqp,
                .uv_fs_open reqp (cstringText path) "O_RDONLY"]
              ++ js_uv_reject (rejectLocal env p) (js_uv_new_error uv_strerror env.fd none)
              ++ [.JS_FreeValue (js_uv_new_error uv_strerror env.fd none), .JS_FreeCString fn,
                  .JS_FreeValue (.resolveFn p), .JS_FreeValue (rejectLocal env p), .free reqp],
            pending := none } := by
  simp [js_uv_fs_read, hpath, hfn, hp, hreq, hctx, hfd, js_uv_create_promise_some, rejectLocal, writeLength,
    JS_IsException, js_uv_fs_req_cleanup]

theorem js_uv_fs_read_malloc_fails (uv_strerror : Int → String) (env : FsEnv)
    (path : JSValue) (rest : List JSValue) (fn p reqp : Nat) (c : JSUVContext)
    (hpath : JS_IsString path = true) (hfn : env.filename = some fn)
    (hp : env.promise = some p) (hreq : env.req = some reqp) (hctx : env.uvctx = some c)
    (hfd : 0 ≤ env.fd) (hbuf : env.buffer = none) :
    js_uv_fs_read uv_strerror env (path :: rest) =
      .ok { ret := .exception,
            trace := [.JS_ToCString fn, .JS_NewPromiseCapability p, .calloc reqp,
                .uv_fs_open reqp (cstringText path) "O_RDONLY", .uv_fs_stat (cstringText path),
                .uv_fs_close env.fd, .JS_FreeCString fn,
                .JS_FreeValue (.resolveFn p), .JS_FreeValue (rejectLocal env p),
                .JS_FreeValue (.promise p), .free reqp, .JS_ThrowOutOfMemory],
            pending := none } := by
  have hfd2 : ¬ env.fd < 0 := by omega
  simp [js_uv_fs_read, hpath, hfn, hp, hreq, hctx, hfd2, hbuf, js_uv_create_promise_some, rejectLocal, writeLength,
    JS_IsException]

theorem js_uv_fs_read_issue_fails (uv_strerror : Int → String) (env : FsEnv)
    (path : JSValue) (rest : List JSValue) (fn p reqp b : Nat) (c : JSUVContext)
    (hpath : JS_IsString path = true) (hfn : env.filename = some fn)
    (hp : env.promise = some p) (hreq : env.req = some reqp) (hctx : env.uvctx = some c)
    (hfd : 0 ≤ env.fd) (hbuf : env.buffer = some b) (hread : env.issue_result < 0) :
    js_uv_fs_read uv_strerror env (path :: rest) =
      .ok { ret := .promise p,
            trace := [.JS_ToCString fn, .JS_NewPromiseCapability p, .calloc reqp,
                .uv_fs_open reqp (cstringText path) "O_RDONLY", .uv_fs_stat (cstringText path),
                .malloc b (.bytes (read_file_size env.stat_result env.st_size)),
                .uv_fs_read reqp env.fd b (uv_buf_init (read_file_size env.stat_result env.st_size))]
              ++ js_uv_reject (rejectLocal env p) (js_uv_new_error uv_strerror env.issue_result none)
              ++ [.JS_FreeValue (js_uv_new_error uv_strerror env.issue_result none),
                  .JS_FreeCString fn, .JS_FreeValue (.resolveFn p), .JS_FreeValue (rejectLocal env p),
                  .free b, .free reqp],
            pending := none } := by
  have hfd2 : ¬ env.fd < 0 := by omega
  simp [js_uv_fs_read, hpath, hfn, hp, hreq, hctx, hfd2, hbuf, hread,
    js_uv_create_promise_some, rejectLocal, writeLength, JS_IsException, js_uv_fs_req_cleanup]

theorem js_uv_fs_read_issued (uv_strerror : Int → String) (env : FsEnv)
    (path : JSValue) (rest : List JSValue) (fn p reqp b : Nat) (c : JSUVContext)
    (hpath : JS_IsString path = true) (hfn : env.filename = some fn)
    (hp : env.promise = some p) (hreq : env.req = some reqp) (hctx : env.uvctx = some c)
    (hfd : 0 ≤ env.fd) (hbuf : env.buffer = some b) (hread : 0 ≤ env.issue_result) :
    js_uv_fs_read uv_strerror env (path :: rest) =
      .ok { ret := .promise p,
            trace := [.JS_ToCString fn, .JS_NewPromiseCapability p, .calloc reqp,
                .uv_fs_open reqp (cstringText path) "O_RDONLY", .uv_fs_stat (cstringText path),
                .malloc b (.bytes (read_file_size env.stat_result env.st_size)),
                .uv_fs_read reqp env.fd b (uv_buf_init (read_file_size env.stat_result env.st_size)),
                .JS_FreeCString fn],
            pending := some { self := reqp, promise_resolve := .resolveFn p,
                              promise_reject := (rejectLocal env p), js_uv_ctx := some c,
                              buffer := some b,
                              buffer_size := read_file_size env.stat_result env.st_size } } := by
  have hfd2 : ¬ env.fd < 0 := by omega
  have hread2 : ¬ env.issue_result < 0 := by omega
  simp [js_uv_fs_read, hpath, hfn, hp, hreq, hctx, hfd2, hbuf, hread2,
    js_uv_create_promise_some, rejectLocal,
    JS_IsException]

theorem js_uv_fs_write_open_fails (uv_strerror : Int → String) (env : FsEnv)
    (path payload : JSValue) (rest : List JSValue) (fn d p reqp : Nat) (c : JSUVContext)
    (hpath : JS_IsString path = true)
    (hpayload : JS_IsString payload = true ∨ JS_IsArrayBuffer payload = true)
    (hfn : env.filename = some fn) (hd : env.data = some d)
    (hp : env.promise = some p) (hreq : env.req = some reqp) (hctx : env.uvctx = some c)
    (hfd : env.fd < 0) :
    js_uv_fs_write uv_strerror env (path :: payload :: rest) =
      .ok { ret := .promise p,
            trace := [.JS_ToCString fn]
              ++ (if JS_IsString payload then [.JS_ToCString d] else [])
              ++ [.JS_NewPromiseCapability p, .calloc reqp,
                  .uv_fs_open reqp (cstringText path) "O_WRONLY | O_CREAT | O_TRUNC"]
              ++ js_uv_reject (rejectLocal env p) (js_uv_new_error uv_strerror env.fd none)
              ++ [.JS_FreeValue (js_uv_new_error uv_strerror env.fd none), .JS_FreeCString fn]
              ++ freeData payload d
              ++ [.JS_FreeValue (.resolveFn p), .JS_FreeValue (rejectLocal env p), .free reqp],
            pending := none } := by
  have hv : (!JS_IsString payload && !JS_IsArrayBuffer payload) = false := by
    rcases hpayload with h | h <;> simp [h]
  simp [js_uv_fs_write, hpath, hv, hfn, hd, hp, hreq, hctx, hfd, js_uv_create_promise_some, rejectLocal, writeLength,
    JS_IsException, js_uv_fs_req_cleanup]

theorem js_uv_fs_write_issue_fails (uv_strerror : Int → String) (env : FsEnv)
    (path payload : JSValue) (rest : List JSValue) (fn d p reqp : Nat) (c : JSUVContext)
    (hpath : JS_IsString path = true)
    (hpayload : JS_IsString payload = true ∨ JS_IsArrayBuffer payload = true)
    (hfn : env.filename = some fn) (hd : env.data = some d)
    (hp : env.promise = some p) (hreq : env.req = some reqp) (hctx : env.uvctx = some c)
    (hfd : 0 ≤ env.fd) (hwrite : env.issue_result < 0) :
    js_uv_fs_write uv_strerror env (path :: payload :: rest) =
      .ok { ret := .promise p,
            trace := [.JS_ToCString fn]
              ++ (if JS_IsString payload then [.JS_ToCString d] else [])
              ++ [.JS_NewPromiseCapability p, .calloc reqp,
                  .uv_fs_open reqp (cstringText path) "O_WRONLY | O_CREAT | O_TRUNC",
                  .uv_fs_write reqp env.fd d (uv_buf_init (writeLength env p payload))]
              ++ js_uv_reject (rejectLocal env p) (js_uv_new_error uv_strerror env.issue_result none)
              ++ [.JS_FreeValue (js_uv_new_error uv_strerror env.issue_result none),
                  .JS_FreeCString fn]
              ++ freeData payload d
              ++ [.JS_FreeValue (.resolveFn p), .JS_FreeValue (rejectLocal env p), .free reqp],
            pending := none } := by
  have hv : (!JS_IsString payload && !JS_IsArrayBuffer payload) = false := by
    rcases hpayload with h | h <;> simp [h]
  have hfd2 : ¬ env.fd < 0 := by omega
  simp [js_uv_fs_write, hpath, hv, hfn, hd, hp, hreq, hctx, hfd2, hwrite,
    js_uv_create_promise_some, rejectLocal, writeLength, JS_IsException, js_uv_fs_req_cleanup]

theorem js_uv_fs_write_issued (uv_strerror : Int → String) (env : FsEnv)
    (path payload : JSValue) (rest : List JSValue) (fn d p reqp : Nat) (c : JSUVContext)
    (hpath : JS_IsString path = true)
    (hpayload : JS_IsString payload = true ∨ JS_IsArrayBuffer payload = true)
    (hfn : env.filename = some fn) (hd : env.data = some d)
    (hp : env.promise = some p) (hreq : env.req = some reqp) (hctx : env.uvctx = some c)
    (hfd : 0 ≤ env.fd) (hwrite : 0 ≤ env.issue_result) :
    js_uv_fs_write uv_strerror env (path :: payload :: rest) =
      .ok { ret := .promise p,
            trace := [.JS_ToCString fn]
              ++ (if JS_IsString payload then [.JS_ToCString d] else [])
              ++ [.JS_NewPromiseCapability p, .calloc reqp,
                  .uv_fs_open reqp (cstringText path) "O_WRONLY | O_CREAT | O_TRUNC",
                  .uv_fs_write reqp env.fd d (uv_buf_init (writeLength env p payload)),
                  .JS_FreeCString fn]
              ++ freeData payload d,
            pending := some { self := reqp, promise_resolve := .resolveFn p,
                              promise_reject := (rejectLocal env p), js_uv_ctx := some c,
                              buffer := none, buffer_size := 0 } } := by
  have hv : (!JS_IsString payload && !JS_IsArrayBuffer payload) = false := by
    rcases hpayload with h | h <;> simp [h]
  have hfd2 : ¬ env.fd < 0 := by omega
  have hwrite2 : ¬ env.issue_result < 0 := by omega
  simp [js_uv_fs_write, hpath, hv, hfn, hd, hp, hreq, hctx, hfd2, hwrite2,
    js_uv_create_promise_some, rejectLocal, writeLength, JS_IsException]

/-! ## Projections of the path traces -/

theorem calls_js_uv_reject (reject error : JSValue) :
    calls (js_uv_reject reject error) =
      (if JS_IsUndefined reject || JS_IsNull reject then [] else [(reject, [error])]) := by
  by_cases hu : JS_IsUndefined reject = true <;> by_cases hn : JS_IsNull reject = true <;>
    simp [js_uv_reject, calls, hu, hn]

theorem typeErrors_js_uv_reject (reject error : JSValue) :
    typeErrors (js_uv_reject reject error) = [] := by
  unfold js_uv_reject
  split <;> rfl

theorem freedValues_js_uv_reject (reject error : JSValue) :
    freedValues (js_uv_reject reject error) = [] := by
  unfold js_uv_reject
  split <;> rfl

theorem freedBlocks_js_uv_reject (reject error : JSValue) :
    freedBlocks (js_uv_reject reject error) = [] := by
  unfold js_uv_reject
  split <;> rfl

theorem allocatedBlocks_js_uv_reject (reject error : JSValue) :
    allocatedBlocks (js_uv_reject reject error) = [] := by
  unfold js_uv_reject
  split <;> rfl

theorem oom_not_mem_js_uv_reject (reject error : JSValue) :
    Event.JS_ThrowOutOfMemory ∉ js_uv_reject reject error := by
  unfold js_uv_reject
  split <;> simp

theorem freedValues_js_uv_resolve (resolve value : JSValue) :
    freedValues (js_uv_resolve resolve value) = [] := by
  unfold js_uv_resolve
  split <;> rfl

theorem freedBlocks_js_uv_resolve (resolve value : JSValue) :
    freedBlocks (js_uv_resolve resolve value) = [] := by
  unfold js_uv_resolve
  split <;> rfl

/-- Projections of `freeData`, which holds at most one `JS_FreeCString`. -/
theorem freeData_projections (payload : JSValue) (d : Nat) :
    calls (freeData payload d) = [] ∧ typeErrors (freeData payload d) = [] ∧
    freedValues (freeData payload d) = [] ∧ freedBlocks (freeData payload d) = [] ∧
    allocatedBlocks (freeData payload d) = [] ∧
    Event.JS_ThrowOutOfMemory ∉ freeData payload d := by
  unfold freeData
  split <;> simp [calls, typeErrors, freedValues, freedBlocks, allocatedBlocks]

/-- Projections of the optional `JS_ToCString` event of the payload. -/
theorem toCString_projections (b : Bool) (d : Nat) :
    calls (if b then [Event.JS_ToCString d] else []) = [] ∧
    typeErrors (if b then [Event.JS_ToCString d] else []) = [] ∧
    freedValues (if b then [Event.JS_ToCString d] else []) = [] ∧
    freedBlocks (if b then [Event.JS_ToCString d] else []) = [] ∧
    allocatedBlocks (if b then [Event.JS_ToCString d] else []) = [] ∧
    Event.JS_ThrowOutOfMemory ∉ (if b then [Event.JS_ToCString d] else []) := by
  cases b <;> simp [calls, typeErrors, freedValues, freedBlocks, allocatedBlocks]

/-! ## Failures after the promise exists -/

/-- The same failure when the buffer of the read cannot be allocated: the call
closes the file, releases resolve, reject and the promise, frees the record and
throws the out-of-memory error. -/
theorem js_uv_fs_read_throws_when_buffer_allocation_fails :
    js_uv_fs_read uv_strerror_sample { sampleFsEnv with buffer := none } [.str "a.txt"] =
      .ok { ret := .exception,
            trace := [.JS_ToCString 100, .JS_NewPromiseCapability 1, .calloc 300,
              .uv_fs_open 300 "a.txt" "O_RDONLY", .uv_fs_stat "a.txt", .uv_fs_close 5,
              .JS_FreeCString 100, .JS_FreeValue (.resolveFn 1), .JS_FreeValue (.rejectFn 1),
              .JS_FreeValue (.promise 1), .free 300, .JS_ThrowOutOfMemory],
            pending := none } := by
  rfl

/-- What the dispatcher releases for a record whose context is set: the
temporary it settled with, the two settlement values, the buffer if there is
one, and the record. -/
theorem js_uv_fs_cb_releases (uv_strerror : Int → String) (heap : Nat → List Nat)
    (done : uv_fs_t) (fs_req : JSUVFSRequest) (c : JSUVContext)
    (hctx : fs_req.js_uv_ctx = some c) :
    ∃ t value,
      js_uv_fs_cb uv_strerror heap { done with data := some fs_req } = .ok t ∧
      JS_IsFunction value = false ∧
      freedValues t = [value, fs_req.promise_resolve, fs_req.promise_reject] ∧
      freedBlocks t =
        (match fs_req.buffer with
         | some b => [b]
         | none => []) ++ [fs_req.self] := by
  have hclean := js_uv_fs_req_cleanup_ok fs_req c hctx
  have hcb := js_uv_fs_cb_ok uv_strerror heap { done with data := some fs_req } fs_req c _ rfl
    hctx hclean
  by_cases hneg : done.result < 0
  · refine ⟨_, js_uv_new_error uv_strerror (toInt32 done.result) none, hcb,
      js_uv_new_error_not_function _ _ _, ?_, ?_⟩
    · cases fs_req.buffer <;>
        simp [fs_settle, hneg, freedValues_append, freedValues_js_uv_reject, freedValues]
    · cases fs_req.buffer <;>
        simp [fs_settle, hneg, freedBlocks_append, freedBlocks_js_uv_reject, freedBlocks]
  · refine ⟨_, fs_result heap fs_req { done with data := some fs_req }, hcb,
      fs_result_not_function _ _ _, ?_, ?_⟩
    · cases fs_req.buffer <;>
        simp [fs_settle, hneg, freedValues_append, freedValues_js_uv_resolve, freedValues]
    · cases fs_req.buffer <;>
        simp [fs_settle, hneg, freedBlocks_append, freedBlocks_js_uv_resolve, freedBlocks]

theorem promise_not_function (p : Nat) : JS_IsFunction (.promise p) = false := rfl

/-- On every path through `js_uv_fs_read` and `js_uv_fs_write` that allocates a
Request Record (arguments valid, promise created, allocation succeeded, context
installed), the record and its buffer are freed exactly once and the values the
record holds as `promise_resolve` and `promise_reject` are passed to
`JS_FreeValue` once each: by the call itself on a synchronous-failure path, which
leaves no record with the event loop, or else by the dispatcher `js_uv_fs_cb` run
on the pending record.  The value held as `promise_reject` is the local `reject`
of the call, whatever it holds. -/
theorem fs_record_release_paths (uv_strerror : Int → String) (heap : Nat → List Nat)
    (env : FsEnv) (path payload : JSValue) (rest : List JSValue) (fn d p reqp : Nat)
    (c : JSUVContext) (done : uv_fs_t)
    (hpath : JS_IsString path = true)
    (hpayload : JS_IsString payload = true ∨ JS_IsArrayBuffer payload = true)
    (hfn : env.filename = some fn) (hd : env.data = some d) (hp : env.promise = some p)
    (hreq : env.req = some reqp) (hctx : env.uvctx = some c) :
    ReleasedExactlyOnce uv_strerror heap (js_uv_fs_read uv_strerror env (path :: rest)) done
      reqp (.resolveFn p) (rejectLocal env p) ∧
    ReleasedExactlyOnce uv_strerror heap
      (js_uv_fs_write uv_strerror env (path :: payload :: rest)) done
      reqp (.resolveFn p) (rejectLocal env p) := by
  obtain ⟨-, -, hfv, hfb, hfa, -⟩ := freeData_projections payload d
  obtain ⟨-, -, htv, htb, hta, -⟩ := toCString_projections (JS_IsString payload) d
  constructor
  · by_cases hfd : env.fd < 0
    · rw [js_uv_fs_read_open_fails uv_strerror env path rest fn p reqp c hpath hfn hp hreq hctx hfd]
      refine ⟨_, rfl, ?_, Or.inl ⟨rfl, ?_, [js_uv_new_error uv_strerror env.fd none], [], ?_, ?_⟩⟩
      · simp [allocatedBlocks_append, allocatedBlocks_js_uv_reject, allocatedBlocks]
      · simp [freedBlocks_append, freedBlocks_js_uv_reject, freedBlocks,
          allocatedBlocks_append, allocatedBlocks_js_uv_reject, allocatedBlocks]
      · simp [freedValues_append, freedValues_js_uv_reject, freedValues]
      · simp [js_uv_new_error_not_function]
    · cases hbuf : env.buffer with
      | none =>
        rw [js_uv_fs_read_malloc_fails uv_strerror env path rest fn p reqp c hpath hfn hp hreq
          hctx (by omega) hbuf]
        refine ⟨_, rfl, ?_, Or.inl ⟨rfl, ?_, [], [.promise p], ?_, ?_⟩⟩
        · simp [allocatedBlocks]
        · simp [freedBlocks, allocatedBlocks]
        · simp [freedValues]
        · simp [promise_not_function]
      | some b =>
        by_cases hread : env.issue_result < 0
        · rw [js_uv_fs_read_issue_fails uv_strerror env path rest fn p reqp b c hpath hfn hp
            hreq hctx (by omega) hbuf hread]
          refine ⟨_, rfl, ?_, Or.inl ⟨rfl, ?_,
            [js_uv_new_error uv_strerror env.issue_result none], [], ?_, ?_⟩⟩
          · simp [allocatedBlocks_append, allocatedBlocks_js_uv_reject, allocatedBlocks]
          · simp [freedBlocks_append, freedBlocks_js_uv_reject, freedBlocks,
              allocatedBlocks_append, allocatedBlocks_js_uv_reject, allocatedBlocks]
          · simp [freedValues_append, freedValues_js_uv_reject, freedValues]
          · simp [js_uv_new_error_not_function]
        · rw [js_uv_fs_read_issued uv_strerror env path rest fn p reqp b c hpath hfn hp
            hreq hctx (by omega) hbuf (by omega)]
          obtain ⟨t, value, hcb, hval, hv, hb⟩ := js_uv_fs_cb_releases uv_strerror heap done
            { self := reqp, promise_resolve := .resolveFn p, promise_reject := (rejectLocal env p),
              js_uv_ctx := some c, buffer := some b,
              buffer_size := read_file_size env.stat_result env.st_size } c rfl
          refine ⟨_, rfl, ?_, Or.inr ⟨_, t, value, rfl, rfl, rfl, rfl, ?_, ?_, hcb, ?_, hval, hv⟩⟩
          · simp [allocatedBlocks]
          · simp [freedBlocks]
          · simp [freedValues]
          · rw [hb]
            simp [allocatedBlocks]
  · by_cases hfd : env.fd < 0
    · rw [js_uv_fs_write_open_fails uv_strerror env path payload rest fn d p reqp c hpath
        hpayload hfn hd hp hreq hctx hfd]
      refine ⟨_, rfl, ?_, Or.inl ⟨rfl, ?_, [js_uv_new_error uv_strerror env.fd none], [], ?_, ?_⟩⟩
      · simp [allocatedBlocks_append, allocatedBlocks_js_uv_reject, allocatedBlocks, hfa, hta]
      · simp [freedBlocks_append, freedBlocks_js_uv_reject, freedBlocks,
          allocatedBlocks_append, allocatedBlocks_js_uv_reject, allocatedBlocks,
          hfa, hta, hfb, htb]
      · simp [freedValues_append, freedValues_js_uv_reject, freedValues, hfv, htv]
      · simp [js_uv_new_error_not_function]
    · by_cases hwrite : env.issue_result < 0
      · rw [js_uv_fs_write_issue_fails uv_strerror env path payload rest fn d p reqp c hpath
          hpayload hfn hd hp hreq hctx (by omega) hwrite]
        refine ⟨_, rfl, ?_, Or.inl ⟨rfl, ?_,
          [js_uv_new_error uv_strerror env.issue_result none], [], ?_, ?_⟩⟩
        · simp [allocatedBlocks_append, allocatedBlocks_js_uv_reject, allocatedBlocks, hfa, hta]
        · simp [freedBlocks_append, freedBlocks_js_uv_reject, freedBlocks,
            allocatedBlocks_append, allocatedBlocks_js_uv_reject, allocatedBlocks,
            hfa, hta, hfb, htb]
        · simp [freedValues_append, freedValues_js_uv_reject, freedValues, hfv, htv]
        · simp [js_uv_new_error_not_function]
      · rw [js_uv_fs_write_issued uv_strerror env path payload rest fn d p reqp c hpath
          hpayload hfn hd hp hreq hctx (by omega) (by omega)]
        obtain ⟨t, value, hcb, hval, hv, hb⟩ := js_uv_fs_cb_releases uv_strerror heap done
          { self := reqp, promise_resolve := .resolveFn p, promise_reject := (rejectLocal env p),
            js_uv_ctx := some c, buffer := none, buffer_size := 0 } c rfl
        refine ⟨_, rfl, ?_, Or.inr ⟨_, t, value, rfl, rfl, rfl, rfl, ?_, ?_, hcb, ?_, hval, hv⟩⟩
        · simp [allocatedBlocks_append, allocatedBlocks, hfa, hta]
        · simp [freedBlocks_append, freedBlocks, hfb, htb]
        · simp [freedValues_append, freedValues, hfv, htv]
        · rw [hb]
          simp [allocatedBlocks_append, allocatedBlocks, hfa, hta]

/-- C3, evaluated for calls of `js_uv_fs_read` in which the uninitialised local
`reject` holds the undefined value and the engine's store of the reject function
goes to storage the call does not read: the engine creates the reject function
of promise 1, and neither a call whose open fails nor an issued call followed by
the dispatcher ever releases it; each releases the record (and buffer) once, the
resolve function once and the stale value of `reject`. -/
theorem fs_reject_function_never_released :
    js_uv_create_promise (some 1) .undefined .undefined =
      (.promise 1, .resolveFn 1, .undefined, some (.rejectFn 1),
        [.JS_NewPromiseCapability 1]) ∧
    (∃ r error,
      js_uv_fs_read uv_strerror_sample { sampleFsEnv with reject := .undefined, fd := -2 }
        [.str "missing.txt"] = .ok r ∧
      r.ret = .promise 1 ∧ r.pending = none ∧
      allocatedBlocks r.trace = [300] ∧ freedBlocks r.trace = [300] ∧
      freedValues r.trace = [error, .resolveFn 1, .undefined] ∧
      JS_IsFunction error = false ∧
      JSValue.rejectFn 1 ∉ freedValues r.trace) ∧
    (∃ r fs_req t,
      js_uv_fs_read uv_strerror_sample { sampleFsEnv with reject := .undefined }
        [.str "a.txt"] = .ok r ∧
      r.ret = .promise 1 ∧ r.pending = some fs_req ∧
      freedValues r.trace = [] ∧ freedBlocks r.trace = [] ∧
      js_uv_fs_cb uv_strerror_sample sampleHeap
        { data := some fs_req, result := 2, fs_type := .UV_FS_READ,
          statbuf := { st_size := 3, st_mode := 33188, st_mtim_sec := 1700000000,
                       st_ctim_sec := 1700000001 } } = .ok t ∧
      allocatedBlocks r.trace = [300, 400] ∧ freedBlocks t = [400, 300] ∧
      freedValues t = [.arrayBuffer [104, 105], .resolveFn 1, .undefined] ∧
      JSValue.rejectFn 1 ∉ freedValues t) :=
  ⟨rfl,
   ⟨_, js_uv_new_error uv_strerror_sample (-2) none, rfl, rfl, rfl, rfl, rfl, rfl, rfl,
     by decide⟩,
   ⟨_, _, _, rfl, rfl, rfl, rfl, rfl, rfl, rfl, rfl, rfl, by decide⟩⟩

/-! ## Argument validation -/

/-- C6, as stated, fails for the empty string: it is a string, so
`js_uv_fs_read` creates the promise and the Request Record and returns the
promise (here rejected because the open fails with code -2); no type error is
thrown. -/
theorem js_uv_fs_read_accepts_empty_path :
    ∃ r, js_uv_fs_read uv_strerror_sample { sampleFsEnv with fd := -2 } [.str ""] = .ok r ∧
      r.ret = .promise 1 ∧ typeErrors r.trace = [] ∧
      createdPromises r.trace = [1] ∧ allocatedBlocks r.trace = [300] :=
  ⟨_, rfl, rfl, rfl, rfl, rfl⟩

/-- C6 (amended): when the path argument is missing or is not a string,
`js_uv_fs_read` and `js_uv_fs_write` fail synchronously with a type error as
their only action, so neither a Request Record nor a promise is created. -/
theorem fs_call_rejects_non_string_path (uv_strerror : Int → String) (env : FsEnv)
    (argv : List JSValue)
    (hbad : argv.length < 1 ∨ JS_IsString (argv.getD 0 .undefined) = false) :
    js_uv_fs_read uv_strerror env argv =
      .ok { ret := .exception, trace := [.JS_ThrowTypeError "filename required"],
            pending := none } ∧
    js_uv_fs_write uv_strerror env argv =
      .ok { ret := .exception, trace := [.JS_ThrowTypeError "filename and data required"],
            pending := none } ∧
    allocatedBlocks [Event.JS_ThrowTypeError "filename required"] = [] ∧
    createdPromises [Event.JS_ThrowTypeError "filename required"] = [] ∧
    allocatedBlocks [Event.JS_ThrowTypeError "filename and data required"] = [] ∧
    createdPromises [Event.JS_ThrowTypeError "filename and data required"] = [] := by
  have hstr : JS_IsString (argv.getD 0 .undefined) = false := by
    rcases hbad with h | h
    · have : argv = [] := List.length_eq_zero.mp (by omega)
      subst this
      rfl
    · exact h
  refine ⟨?_, ?_, rfl, rfl, rfl, rfl⟩
  · unfold js_uv_fs_read
    simp only [hstr]
    simp
  · unfold js_uv_fs_write
    simp only [hstr]
    simp

/-- Witness for C6 (amended): a call without arguments and a call whose path is
a number. -/
theorem fs_call_rejects_non_string_path_witness :
    js_uv_fs_read uv_strerror_sample sampleFsEnv [] =
      .ok { ret := .exception, trace := [.JS_ThrowTypeError "filename required"],
            pending := none } ∧
    js_uv_fs_write uv_strerror_sample sampleFsEnv [.int 7, .str "hi"] =
      .ok { ret := .exception, trace := [.JS_ThrowTypeError "filename and data required"],
            pending := none } :=
  ⟨(fs_call_rejects_non_string_path uv_strerror_sample sampleFsEnv [] (Or.inl (by decide))).1,
   (fs_call_rejects_non_string_path uv_strerror_sample sampleFsEnv [.int 7, .str "hi"]
      (Or.inr rfl)).2.1⟩

/-- C7: for `js_uv_fs_write` with a valid path, the call throws a type error
exactly when the payload is neither a string nor an ArrayBuffer; in that case
it converts the path, releases it, throws "data must be string or ArrayBuffer"
and does nothing else, so neither a Request Record nor a promise is created. -/
theorem js_uv_fs_write_payload_validation (uv_strerror : Int → String) (env : FsEnv)
    (path payload : JSValue) (rest : List JSValue) (fn : Nat)
    (hpath : JS_IsString path = true) (hfn : env.filename = some fn) :
    ((∃ r, js_uv_fs_write uv_strerror env (path :: payload :: rest) = .ok r ∧
        typeErrors r.trace ≠ []) ↔
      ¬ (JS_IsString payload = true ∨ JS_IsArrayBuffer payload = true)) ∧
    (¬ (JS_IsString payload = true ∨ JS_IsArrayBuffer payload = true) →
      js_uv_fs_write uv_strerror env (path :: payload :: rest) =
        .ok { ret := .exception,
              trace := [.JS_ToCString fn, .JS_FreeCString fn,
                .JS_ThrowTypeError "data must be string or ArrayBuffer"],
              pending := none } ∧
      freedCStrings [Event.JS_ToCString fn, Event.JS_FreeCString fn,
        Event.JS_ThrowTypeError "data must be string or ArrayBuffer"] = [fn] ∧
      allocatedBlocks [Event.JS_ToCString fn, Event.JS_FreeCString fn,
        Event.JS_ThrowTypeError "data must be string or ArrayBuffer"] = [] ∧
      createdPromises [Event.JS_ToCString fn, Event.JS_FreeCString fn,
        Event.JS_ThrowTypeError "data must be string or ArrayBuffer"] = []) := by
  have hbad : ¬ (JS_IsString payload = true ∨ JS_IsArrayBuffer payload = true) →
      js_uv_fs_write uv_strerror env (path :: payload :: rest) =
        .ok { ret := .exception,
              trace := [.JS_ToCString fn, .JS_FreeCString fn,
                .JS_ThrowTypeError "data must be string or ArrayBuffer"],
              pending := none } := by
    intro h
    have h1 : JS_IsString payload = false := by
      cases hs : JS_IsString payload
      · rfl
      · exact absurd (Or.inl hs) h
    have h2 : JS_IsArrayBuffer payload = false := by
      cases hs : JS_IsArrayBuffer payload
      · rfl
      · exact absurd (Or.inr hs) h
    simp [js_uv_fs_write, hpath, hfn, h1, h2]
  refine ⟨⟨?_, ?_⟩, fun h => ⟨hbad h, rfl, rfl, rfl⟩⟩
  · rintro ⟨r, hr, hte⟩ hok
    apply hte
    have hlen : ¬ (rest.length + 1 + 1 < 2) := by omega
    have hv : (!JS_IsString payload && !JS_IsArrayBuffer payload) = false := by
      rcases hok with h | h <;> simp [h]
    have hfd2 : ∀ d, typeErrors (freeData payload d) = [] :=
      fun d => (freeData_projections payload d).2.1
    have htc2 : ∀ d, typeErrors (if JS_IsString payload then [Event.JS_ToCString d] else []) = [] :=
      fun d => (toCString_projections (JS_IsString payload) d).2.1
    simp only [js_uv_fs_write, hpath, hv, hfn, List.length_cons, List.getD_cons_zero,
      List.getD_cons_succ] at hr
    revert hr
    cases env.data with
    | none =>
      intro hr
      simp [hlen] at hr
      subst hr
      rfl
    | some d =>
      cases hp : env.promise with
      | none =>
        intro hr
        simp [js_uv_create_promise, JS_NewPromiseCapability, JS_IsException, hp, hlen] at hr
        subst hr
        simp [typeErrors_append, typeErrors, hfd2, htc2]
      | some p =>
        cases hq : env.req with
        | none =>
          intro hr
          simp [js_uv_create_promise_some, JS_IsException, hp, hq, hlen] at hr
          subst hr
          simp [typeErrors_append, typeErrors, hfd2, htc2]
        | some reqp =>
          cases hc : env.uvctx with
          | none =>
            intro hr
            simp [js_uv_create_promise_some, JS_IsException, hp, hq, hc, hlen] at hr
          | some c =>
            intro hr
            simp only [js_uv_create_promise_some, JS_IsException, hp, hq, hc,
              js_uv_fs_req_cleanup] at hr
            by_cases hfd : env.fd < 0
            · simp [hfd, hlen] at hr
              subst hr
              simp [typeErrors_append, typeErrors, hfd2, htc2, typeErrors_js_uv_reject]
            · by_cases hw : env.issue_result < 0
              · simp [hfd, hw, hlen] at hr
                subst hr
                simp [typeErrors_append, typeErrors, hfd2, htc2, typeErrors_js_uv_reject]
              · simp [hfd, hw, hlen] at hr
                subst hr
                simp [typeErrors_append, typeErrors, hfd2, htc2]
  · intro h
    exact ⟨_, hbad h, by simp [typeErrors]⟩

/-- Witness for C7: a number as payload is refused with the type error, a
string payload is not. -/
theorem js_uv_fs_write_payload_validation_witness :
    js_uv_fs_write uv_strerror_sample sampleFsEnv [.str "a.txt", .int 7] =
      .ok { ret := .exception,
            trace := [.JS_ToCString 100, .JS_FreeCString 100,
              .JS_ThrowTypeError "data must be string or ArrayBuffer"],
            pending := none } ∧
    ¬ (∃ r, js_uv_fs_write uv_strerror_sample sampleFsEnv [.str "a.txt", .str "hi"] = .ok r ∧
        typeErrors r.trace ≠ []) :=
  ⟨((js_uv_fs_write_payload_validation uv_strerror_sample sampleFsEnv (.str "a.txt") (.int 7) []
      100 rfl rfl).2 (by decide)).1,
   fun h => ((js_uv_fs_write_payload_validation uv_strerror_sample sampleFsEnv (.str "a.txt")
      (.str "hi") [] 100 rfl rfl).1.mp h) (Or.inl rfl)⟩

/-! ## Connection events -/

theorem connectionObject_props (ip : String) (port : Nat) :
    (connectionObject ip port).getProp "type" = some (.str "connection") ∧
    (connectionObject ip port).getProp "from" = some (.str (ip ++ ":" ++ toString port)) ∧
    JS_IsFunction (connectionObject ip port) = false := by
  simp [connectionObject, formatFrom, JS_SetPropertyStr, JS_NewString, JSValue.getProp,
    JS_IsFunction]

/-- C8, the failing case: the connection is accepted but the peer-name lookup
fails (here with code -107, the peer being gone already).  The host callback is
still invoked, and the `from` field is built from the local array `ip`, which
was never written, and port 0; it is not the peer's address and port. -/
theorem js_uv_tcp_connection_cb_peer_lookup_fails :
    ∃ conn_obj,
      js_uv_tcp_connection_cb uv_strerror_sample sampleStream 0
        { sampleConnEnv with getpeername_result := -107, ip_uninit := "junk" } =
        .ok [.malloc 50 (.sizeof "uv_tcp_t"), .uv_tcp_init 50, .uv_accept 10 50,
             .JS_Call (.func 7) [conn_obj], .JS_FreeValue conn_obj, .uv_close 50] ∧
      conn_obj.getProp "type" = some (.str "connection") ∧
      conn_obj.getProp "from" = some (.str "junk:0") ∧
      conn_obj.getProp "from" ≠ some (.str "192.0.2.7:5000") :=
  ⟨connectionObject "junk" 0, by rfl, by rfl, by rfl, by decide⟩

/-- The cases of C8 that hold, for a server whose callback is set and whose
context is installed: a negative status gives one host call with an error
carrying the status and no accept; an accepted connection whose peer name is
looked up successfully as IPv4 or IPv6 gives one host call with the connection
object for that address and port; a failed accept gives no host call. -/
theorem js_uv_tcp_connection_cb_cases (uv_strerror : Int → String) (server : uv_stream_t)
    (tcp_server : JSUVTCPServer) (c : JSUVContext) (status : Int) (env : ConnEnv)
    (hdata : server.data = some tcp_server) (hctx : tcp_server.js_uv_ctx = some c)
    (hcb : JS_IsUndefined tcp_server.callback = false) :
    ∃ t, js_uv_tcp_connection_cb uv_strerror server status env = .ok t ∧
      (status < 0 →
        calls t = [(tcp_server.callback, [js_uv_new_error uv_strerror status none])] ∧
        (js_uv_new_error uv_strerror status none).getProp "code" = some (.int status) ∧
        acceptAttempts t = []) ∧
      (0 ≤ status → ∀ client, env.client = some client → env.accept_result = 0 →
        env.getpeername_result = 0 → env.family ≠ .AF_OTHER →
        calls t = [(tcp_server.callback, [connectionObject env.ip_name env.port])] ∧
        acceptAttempts t = [client]) ∧
      (0 ≤ status → env.accept_result ≠ 0 → calls t = []) := by
  by_cases hneg : status < 0
  · refine ⟨_, by simp [js_uv_tcp_connection_cb, hdata, hctx, hneg, hcb]; rfl, ?_, ?_, ?_⟩
    · intro _
      simp [calls, acceptAttempts, js_uv_new_error, JS_SetPropertyStr, JSValue.getProp,
        JS_NewInt32]
    · intro h
      omega
    · intro h
      omega
  · cases hcl : env.client with
    | none =>
      refine ⟨[], by simp [js_uv_tcp_connection_cb, hdata, hctx, hneg, hcl], ?_, ?_, ?_⟩
      · intro h
        exact absurd h hneg
      · intro _ client h
        cases h
      · intro _ _
        rfl
    | some client =>
      by_cases hacc : env.accept_result = 0
      · refine ⟨_, by simp [js_uv_tcp_connection_cb, hdata, hctx, hneg, hcl, hacc, hcb]; rfl,
          ?_, ?_, ?_⟩
        · intro h
          exact absurd h hneg
        · intro _ client1 h1 _ hpeer hfam
          cases h1
          have hpn : peerName env = (env.ip_name, env.port) := by
            unfold peerName
            cases hf : env.family <;> simp_all
          simp [calls, acceptAttempts, hpn]
        · intro _ h
          exact absurd hacc h
      · refine ⟨_, by simp [js_uv_tcp_connection_cb, hdata, hctx, hneg, hcl, hacc]; rfl,
          ?_, ?_, ?_⟩
        · intro h
          exact absurd h hneg
        · intro _ _ _ h
          exact absurd h hacc
        · intro _ _
          simp [calls]

/-- One connection event releases no function value and no block other than
the client socket it allocated itself, duplicates nothing, and calls nothing but
the server's callback. -/
theorem js_uv_tcp_connection_cb_footprint (uv_strerror : Int → String) (server : uv_stream_t)
    (tcp_server : JSUVTCPServer) (c : JSUVContext) (status : Int) (env : ConnEnv)
    (hdata : server.data = some tcp_server) (hctx : tcp_server.js_uv_ctx = some c) :
    ∃ t, js_uv_tcp_connection_cb uv_strerror server status env = .ok t ∧
      (∀ v ∈ freedValues t, JS_IsFunction v = false) ∧
      (∀ b ∈ freedBlocks t, env.client = some b) ∧
      dupValues t = [] ∧
      (∀ call ∈ calls t, call.1 = tcp_server.callback) := by
  by_cases hneg : status < 0
  · refine ⟨_, by simp [js_uv_tcp_connection_cb, hdata, hctx, hneg]; rfl, ?_, ?_, ?_, ?_⟩
    · cases hu : JS_IsUndefined tcp_server.callback <;>
        simp [freedValues, js_uv_new_error_not_function]
    · cases hu : JS_IsUndefined tcp_server.callback <;> simp [freedBlocks]
    · cases hu : JS_IsUndefined tcp_server.callback <;> simp [dupValues]
    · cases hu : JS_IsUndefined tcp_server.callback <;> simp [calls]
  · cases hcl : env.client with
    | none =>
      exact ⟨[], by simp [js_uv_tcp_connection_cb, hdata, hctx, hneg, hcl],
        by simp [freedValues], by simp [freedBlocks], rfl, by simp [calls]⟩
    | some client =>
      by_cases hacc : env.accept_result = 0
      · refine ⟨_, by simp [js_uv_tcp_connection_cb, hdata, hctx, hneg, hcl, hacc]; rfl,
          ?_, ?_, ?_, ?_⟩
        · cases hu : JS_IsUndefined tcp_server.callback <;>
            simp [freedValues, (connectionObject_props _ _).2.2]
        · cases hu : JS_IsUndefined tcp_server.callback <;> simp [freedBlocks]
        · cases hu : JS_IsUndefined tcp_server.callback <;> simp [dupValues]
        · cases hu : JS_IsUndefined tcp_server.callback <;> simp [calls]
      · refine ⟨_, by simp [js_uv_tcp_connection_cb, hdata, hctx, hneg, hcl, hacc]; rfl,
          ?_, ?_, ?_, ?_⟩
        · simp [freedValues]
        · simp [freedBlocks]
        · simp [dupValues]
        · simp [calls]

/-- C9: over every finite sequence of connection events delivered to a server
record (context installed, callback a function, no client socket allocated at
the address of the live record), `js_uv_tcp_connection_cb` never releases the
callback or the record and never duplicates a value, so the callback's
reference count is unchanged; and every host call of the sequence, the first as
the k-th, is a call of the record's callback. -/
theorem tcp_server_survives_connections (uv_strerror : Int → String) (server : uv_stream_t)
    (tcp_server : JSUVTCPServer) (c : JSUVContext) (events : List (Int × ConnEnv))
    (hdata : server.data = some tcp_server) (hctx : tcp_server.js_uv_ctx = some c)
    (hfun : JS_IsFunction tcp_server.callback = true)
    (hfresh : ∀ e ∈ events, e.2.client ≠ some tcp_server.self) :
    ∃ t, deliverConnections uv_strerror server events = .ok t ∧
      tcp_server.callback ∉ freedValues t ∧
      dupValues t = [] ∧
      tcp_server.self ∉ freedBlocks t ∧
      (∀ call ∈ calls t, call.1 = tcp_server.callback) := by
  induction events with
  | nil =>
    exact ⟨[], rfl, by simp [freedValues], rfl, by simp [freedBlocks], by simp [calls]⟩
  | cons e rest ih =>
    obtain ⟨status, env⟩ := e
    obtain ⟨ts, hts, h1, h2, h3, h4⟩ := ih (fun e he => hfresh e (List.mem_cons_of_mem _ he))
    obtain ⟨t, ht, g1, g2, g3, g4⟩ :=
      js_uv_tcp_connection_cb_footprint uv_strerror server tcp_server c status env hdata hctx
    have hcl : env.client ≠ some tcp_server.self := hfresh (status, env) (List.mem_cons_self _ _)
    refine ⟨t ++ ts, by simp [deliverConnections, ht, hts], ?_, ?_, ?_, ?_⟩
    · rw [freedValues_append, List.mem_append]
      rintro (h | h)
      · have := g1 _ h
        rw [hfun] at this
        cases this
      · exact h1 h
    · rw [dupValues_append, g3, h2]
      rfl
    · rw [freedBlocks_append, List.mem_append]
      rintro (h | h)
      · exact hcl (g2 _ h)
      · exact h3 h
    · intro call hcall
      rw [calls_append, List.mem_append] at hcall
      rcases hcall with h | h
      · exact g4 _ h
      · exact h4 _ h

/-- Witness for C9: an error event, an accepted connection and a failed accept
delivered to the sample server. -/
theorem tcp_server_survives_connections_witness :
    ∃ t, deliverConnections uv_strerror_sample sampleStream
        [(-107, sampleConnEnv), (0, sampleConnEnv),
         (0, { sampleConnEnv with accept_result := -11 })] = .ok t ∧
      JSValue.func 7 ∉ freedValues t ∧ dupValues t = [] ∧ 20 ∉ freedBlocks t ∧
      (∀ call ∈ calls t, call.1 = JSValue.func 7) ∧ (calls t).length = 2 := by
  obtain ⟨t, ht, h1, h2, h3, h4⟩ :=
    tcp_server_survives_connections uv_strerror_sample sampleStream sampleServer sampleContext
      [(-107, sampleConnEnv), (0, sampleConnEnv),
       (0, { sampleConnEnv with accept_result := -11 })] rfl rfl rfl (by decide)
  refine ⟨t, ht, h1, h2, h3, h4, ?_⟩
  have hv : deliverConnections uv_strerror_sample sampleStream
      [(-107, sampleConnEnv), (0, sampleConnEnv),
       (0, { sampleConnEnv with accept_result := -11 })] =
      .ok [.JS_Call (.func 7) [js_uv_new_error uv_strerror_sample (-107) none],
           .JS_FreeValue (js_uv_new_error uv_strerror_sample (-107) none),
           .malloc 50 (.sizeof "uv_tcp_t"), .uv_tcp_init 50, .uv_accept 10 50,
           .JS_Call (.func 7) [connectionObject "192.0.2.7" 5000],
           .JS_FreeValue (connectionObject "192.0.2.7" 5000), .uv_close 50,
           .malloc 50 (.sizeof "uv_tcp_t"), .uv_tcp_init 50, .uv_accept 10 50,
           .uv_close 50, .free 50] := by rfl
  rw [hv] at ht
  cases ht
  rfl

/-! ## Server creation -/

/-- C10: when bind or listen returns a negative code inside
`js_uv_tcp_create_server` (arguments valid, allocations succeeded, context
installed), the call returns the exception value and leaves no server record
with the loop; the one error it throws has the native error text of that code
as message; the callback reference duplicated at entry is released once, and
the two blocks allocated, the socket handle and the server record, are freed
once each. -/
theorem js_uv_tcp_create_server_bind_listen_failure (uv_strerror : Int → String)
    (env : TcpEnv) (n : Int) (callback : JSValue) (rest : List JSValue) (self handle : Nat)
    (c : JSUVContext)
    (hcb : JS_IsFunction callback = true)
    (hself : env.tcp_server = some self) (hhandle : env.tcp_handle = some handle)
    (hctx : env.uvctx = some c)
    (hfail : env.bind_result < 0 ∨ env.listen_result < 0) :
    ∃ r code,
      js_uv_tcp_create_server uv_strerror env (.int n :: callback :: rest) = .ok r ∧
      code = (if env.bind_result < 0 then env.bind_result else env.listen_result) ∧
      code < 0 ∧
      r.ret = .exception ∧ r.listening = none ∧
      typeErrors r.trace = [uv_strerror code] ∧
      Event.JS_ThrowOutOfMemory ∉ r.trace ∧
      dupValues r.trace = [callback] ∧ freedValues r.trace = [callback] ∧
      allocatedBlocks r.trace = [self, handle] ∧ freedBlocks r.trace = [handle, self] := by
  by_cases hbind : env.bind_result < 0
  · refine ⟨ServerResult.mk .exception
        ([.JS_DupValue callback, .calloc self, .malloc handle (.sizeof "uv_tcp_t"),
          .uv_tcp_init handle, .uv_tcp_bind handle (toInt32 n), .JS_FreeValue callback,
          .free handle, .free self, .JS_ThrowTypeError (uv_strerror env.bind_result)])
        none, env.bind_result, ?_, by simp [hbind], hbind, rfl, rfl, ?_, ?_,
      rfl, rfl, rfl, rfl⟩
    · simp [js_uv_tcp_create_server, JS_IsNumber, JS_ToInt32, hcb, hself, hhandle, hctx, hbind]
    · simp [typeErrors]
    · simp
  · have hlisten : env.listen_result < 0 := by
      rcases hfail with h | h
      · exact absurd h hbind
      · exact h
    refine ⟨ServerResult.mk .exception
        ([.JS_DupValue callback, .calloc self, .malloc handle (.sizeof "uv_tcp_t"),
          .uv_tcp_init handle, .uv_tcp_bind handle (toInt32 n), .uv_listen handle 128,
          .JS_FreeValue callback, .free handle, .free self,
          .JS_ThrowTypeError (uv_strerror env.listen_result)])
        none, env.listen_result, ?_, by simp [hbind], hlisten, rfl, rfl, ?_, ?_,
      rfl, rfl, rfl, rfl⟩
    · simp [js_uv_tcp_create_server, JS_IsNumber, JS_ToInt32, hcb, hself, hhandle, hctx, hbind,
        hlisten]
    · simp [typeErrors]
    · simp

/-- Witness for C10: binding port 8080 fails with code -98. -/
theorem js_uv_tcp_create_server_bind_listen_failure_witness :
    ∃ r, js_uv_tcp_create_server uv_strerror_sample { sampleTcpEnv with bind_result := -98 }
        [.int 8080, .func 7] = .ok r ∧
      r.ret = .exception ∧ r.listening = none ∧
      typeErrors r.trace = ["address already in use"] ∧
      freedValues r.trace = [.func 7] ∧ freedBlocks r.trace = [10, 20] := by
  obtain ⟨r, code, h1, hcode, -, h2, h3, h4, -, -, h5, -, h6⟩ :=
    js_uv_tcp_create_server_bind_listen_failure uv_strerror_sample
      { sampleTcpEnv with bind_result := -98 } 8080 (.func 7) [] 20 10 sampleContext
      rfl rfl rfl rfl (Or.inl (by decide))
  have hc : code = -98 := by rw [hcode]; rfl
  subst hc
  exact ⟨r, h1, h2, h3, h4, h5, h6⟩

/-! ## Timers -/

theorem js_uv_set_timeout_started (env : TimerEnv) (callback : JSValue) (ms : Int)
    (rest : List JSValue) (c : JSUVContext) (loop self handle : Nat)
    (hcb : JS_IsFunction callback = true)
    (hctx : env.uvctx = some c) (hloop : c.loop = some loop)
    (hself : env.timer = some self) (hhandle : env.timer_handle = some handle) :
    js_uv_set_timeout env (callback :: .int ms :: rest) =
      .ok { ret := JS_NewInt32 (toInt32 self),
            trace := [.JS_DupValue callback, .calloc self,
              .malloc handle (.sizeof "uv_timer_t"), .uv_timer_init handle,
              .uv_timer_start handle (toUInt64 (toInt32 ms)) 0],
            started := some { handle := handle,
                              data := some { self := self, callback := callback,
                                             timer_handle := some handle,
                                             js_uv_ctx := some c } } } := by
  simp [js_uv_set_timeout, JS_IsNumber, JS_ToInt32, availableLoop, hcb, hctx, hloop, hself,
    hhandle]

theorem js_uv_timer_cb_fired (self handle : Nat) (callback call_result : JSValue)
    (c : JSUVContext) (hcb : JS_IsFunction callback = true) :
    js_uv_timer_cb
        { handle := handle,
          data := some { self := self, callback := callback, timer_handle := some handle,
                         js_uv_ctx := some c } } call_result =
      .ok [.JS_Call callback [], .uv_timer_stop handle, .JS_FreeValue callback,
           .free handle, .free self] := by
  have hu : JS_IsUndefined callback = false := by
    cases callback <;> simp_all [JS_IsFunction, JS_IsUndefined]
  simp [js_uv_timer_cb, js_uv_timer_cleanup, hu]

/-- The loop never runs the callback of a handle that is not a running timer. -/
theorem fireTimer_inactive (h : uv_timer_t) (call_result : JSValue) (n : Nat) (past : Trace)
    (hidle : h.handle ∉ activeTimers past) : fireTimer h call_result n past = .ok past := by
  induction n with
  | zero => rfl
  | succ n ih => simp [fireTimer, hidle, ih]

/-- C11: for a timer created by `js_uv_set_timeout` (arguments valid, context
and loop available, allocations succeeded), `js_uv_timer_cb` invokes the host
callback exactly once with zero arguments, then stops the timer and releases the
callback reference, the native handle and the record once each, whatever value
or exception `call_result` the callback produces; afterwards the handle is no
running timer, so however often the loop looks at it again the callback is not
invoked a second time. -/
theorem timer_fires_exactly_once (env : TimerEnv) (callback : JSValue) (ms : Int)
    (rest : List JSValue) (c : JSUVContext) (loop self handle : Nat)
    (call_result : JSValue) (attempts : Nat)
    (hcb : JS_IsFunction callback = true)
    (hctx : env.uvctx = some c) (hloop : c.loop = some loop)
    (hself : env.timer = some self) (hhandle : env.timer_handle = some handle) :
    ∃ r h fired,
      js_uv_set_timeout env (callback :: .int ms :: rest) = .ok r ∧
      r.started = some h ∧ h.handle = handle ∧
      js_uv_timer_cb h call_result = .ok fired ∧
      fired = [.JS_Call callback [], .uv_timer_stop handle, .JS_FreeValue callback,
               .free handle, .free self] ∧
      calls fired = [(callback, [])] ∧
      freedValues fired = [callback] ∧ dupValues r.trace = [callback] ∧
      freedBlocks fired = [handle, self] ∧ allocatedBlocks r.trace = [self, handle] ∧
      handle ∈ activeTimers r.trace ∧ handle ∉ activeTimers (r.trace ++ fired) ∧
      fireTimer h call_result (attempts + 1) r.trace = .ok (r.trace ++ fired) ∧
      calls (r.trace ++ fired) = [(callback, [])] := by
  have hset := js_uv_set_timeout_started env callback ms rest c loop self handle hcb hctx hloop
    hself hhandle
  have hfire := js_uv_timer_cb_fired self handle callback call_result c hcb
  have hact : handle ∈ activeTimers [Event.JS_DupValue callback, Event.calloc self,
      Event.malloc handle (.sizeof "uv_timer_t"), Event.uv_timer_init handle,
      Event.uv_timer_start handle (toUInt64 (toInt32 ms)) 0] := by
    simp [activeTimers, timerStep]
  have hidle : handle ∉ activeTimers ([Event.JS_DupValue callback, Event.calloc self,
      Event.malloc handle (.sizeof "uv_timer_t"), Event.uv_timer_init handle,
      Event.uv_timer_start handle (toUInt64 (toInt32 ms)) 0] ++
      [Event.JS_Call callback [], Event.uv_timer_stop handle, Event.JS_FreeValue callback,
       Event.free handle, Event.free self]) := by
    simp [activeTimers, timerStep]
  refine ⟨_, _, _, hset, rfl, rfl, hfire, rfl, rfl, rfl, rfl, rfl, rfl, hact, hidle, ?_, rfl⟩
  have hstep : fireTimer
      { handle := handle,
        data := some { self := self, callback := callback, timer_handle := some handle,
                       js_uv_ctx := some c } } call_result (attempts + 1)
      [Event.JS_DupValue callback, Event.calloc self,
       Event.malloc handle (.sizeof "uv_timer_t"), Event.uv_timer_init handle,
       Event.uv_timer_start handle (toUInt64 (toInt32 ms)) 0] =
      fireTimer
      { handle := handle,
        data := some { self := self, callback := callback, timer_handle := some handle,
                       js_uv_ctx := some c } } call_result attempts
      ([Event.JS_DupValue callback, Event.calloc self,
        Event.malloc handle (.sizeof "uv_timer_t"), Event.uv_timer_init handle,
        Event.uv_timer_start handle (toUInt64 (toInt32 ms)) 0] ++
       [Event.JS_Call callback [], Event.uv_timer_stop handle, Event.JS_FreeValue callback,
        Event.free handle, Event.free self]) := by
    rw [fireTimer, if_pos hact, hfire]
  rw [hstep]
  exact fireTimer_inactive _ _ _ _ hidle

/-- Witness for C11: the sample timer, whose callback throws, looked at three
times by the loop. -/
theorem timer_fires_exactly_once_witness :
    ∃ r h,
      js_uv_set_timeout sampleTimerEnv [.func 7, .int 10] = .ok r ∧ r.started = some h ∧
      js_uv_timer_cb h .exception =
        .ok [.JS_Call (.func 7) [], .uv_timer_stop 700, .JS_FreeValue (.func 7),
             .free 700, .free 600] ∧
      fireTimer h .exception 3 r.trace =
        .ok (r.trace ++ [.JS_Call (.func 7) [], .uv_timer_stop 700, .JS_FreeValue (.func 7),
             .free 700, .free 600]) := by
  obtain ⟨r, h, fired, h1, h2, -, h4, h5, -, -, -, -, -, -, -, h13, -⟩ :=
    timer_fires_exactly_once sampleTimerEnv (.func 7) 10 [] sampleContext 3 600 700 .exception 2
      rfl rfl rfl rfl rfl
  subst h5
  exact ⟨r, h, h1, h2, h4, h13⟩

/-! ## Calls without a Handle Context -/

/-- With a null context `js_uv_fs_read`, `js_uv_fs_write` and
`js_uv_tcp_create_server` reach the dereference `js_uv_ctx->loop` whenever the
arguments are valid and the allocations before it succeed. -/
theorem null_context_faults (uv_strerror : Int → String) (env : FsEnv) (tenv : TcpEnv)
    (path payload callback : JSValue) (n : Int) (rest : List JSValue) (fn d p reqp self handle : Nat)
    (hpath : JS_IsString path = true)
    (hpayload : JS_IsString payload = true ∨ JS_IsArrayBuffer payload = true)
    (hfn : env.filename = some fn) (hd : env.data = some d) (hp : env.promise = some p)
    (hreq : env.req = some reqp) (hctx : env.uvctx = none)
    (hcb : JS_IsFunction callback = true) (hself : tenv.tcp_server = some self)
    (hhandle : tenv.tcp_handle = some handle) (htctx : tenv.uvctx = none) :
    js_uv_fs_read uv_strerror env (path :: rest) = .error .nullDereference ∧
    js_uv_fs_write uv_strerror env (path :: payload :: rest) = .error .nullDereference ∧
    js_uv_tcp_create_server uv_strerror tenv (.int n :: callback :: rest) =
      .error .nullDereference := by
  have hv : (!JS_IsString payload && !JS_IsArrayBuffer payload) = false := by
    rcases hpayload with h | h <;> simp [h]
  refine ⟨?_, ?_, ?_⟩
  · simp [js_uv_fs_read, hpath, hfn, hp, hreq, hctx, js_uv_create_promise_some, JS_IsException]
  · simp [js_uv_fs_write, hpath, hv, hfn, hd, hp, hreq, hctx, js_uv_create_promise_some,
      JS_IsException]
  · simp [js_uv_tcp_create_server, JS_IsNumber, JS_ToInt32, hcb, hself, hhandle, htctx]

/-- C12, evaluated with no Handle Context installed: `js_uv_set_timeout`,
`js_uv_run` and `js_uv_stop` check the looked-up context and throw the type
error "No event loop available"; `js_uv_fs_read`, `js_uv_fs_write` and
`js_uv_tcp_create_server` store it unchecked and dereference the null pointer
for its `loop` field. -/
theorem null_context_checked_only_by_timer_and_loop_calls :
    js_uv_fs_read uv_strerror_sample { sampleFsEnv with uvctx := none } [.str "a.txt"] =
      .error .nullDereference ∧
    js_uv_fs_write uv_strerror_sample { sampleFsEnv with uvctx := none }
      [.str "a.txt", .str "hi"] = .error .nullDereference ∧
    js_uv_tcp_create_server uv_strerror_sample { sampleTcpEnv with uvctx := none }
      [.int 8080, .func 7] = .error .nullDereference ∧
    js_uv_set_timeout { sampleTimerEnv with uvctx := none } [.func 7, .int 10] =
      .ok { ret := .exception,
            trace := [.JS_DupValue (.func 7), .JS_FreeValue (.func 7),
              .JS_ThrowTypeError "No event loop available"],
            started := none } ∧
    js_uv_run { uvctx := none, run_result := 0 } =
      .ok { ret := .exception, trace := [.JS_ThrowTypeError "No event loop available"],
            pending := none } ∧
    js_uv_stop { uvctx := none, run_result := 0 } =
      .ok { ret := .exception, trace := [.JS_ThrowTypeError "No event loop available"],
            pending := none } :=
  ⟨rfl, rfl, rfl, rfl, rfl, rfl⟩

/-! ## The timer handle -/

/-- Two addresses get the same handle exactly when they agree modulo 2^32. -/
theorem toInt32_eq_iff (a b : Int) :
    toInt32 a = toInt32 b ↔ a % 4294967296 = b % 4294967296 := by
  unfold toInt32
  omega

/-- C13, evaluated for two timer records that are live at the same time, one
at address 0x100001000 and one at address 0x200001000: `js_uv_set_timeout`
returns the handle 4096 for both, because the address is narrowed to 32 bits. -/
theorem js_uv_set_timeout_handles_collide :
    ∃ r1 r2 h1 h2 t1 t2,
      js_uv_set_timeout { sampleTimerEnv with timer := some 4294971392, timer_handle := some 700 }
        [.func 7, .int 10] = .ok r1 ∧
      js_uv_set_timeout { sampleTimerEnv with timer := some 8589938688, timer_handle := some 800 }
        [.func 8, .int 10] = .ok r2 ∧
      r1.started = some h1 ∧ r2.started = some h2 ∧
      h1.data = some t1 ∧ h2.data = some t2 ∧
      t1.self = 4294971392 ∧ t2.self = 8589938688 ∧ t1.self ≠ t2.self ∧
      r1.ret = .int 4096 ∧ r2.ret = .int 4096 ∧ r1.ret = r2.ret :=
  ⟨_, _, _, _, _, _, rfl, rfl, rfl, rfl, rfl, rfl, rfl, rfl, by decide, rfl, rfl, rfl⟩

/-! ## The stat result -/

/-- The stat result of the dispatcher of `quickjs-libuv-v2.c` carries the four
fields; they equal the stat buffer's values when these are below 2^53 in
magnitude. -/
theorem fs_result_stat_fields (heap : Nat → List Nat) (fs_req : JSUVFSRequest) (req : uv_fs_t)
    (hkind : req.fs_type = .UV_FS_STAT)
    (hsize : req.statbuf.st_size < 9007199254740992)
    (hmode : req.statbuf.st_mode < 9007199254740992)
    (hmtime : -9007199254740992 < req.statbuf.st_mtim_sec ∧
      req.statbuf.st_mtim_sec < 9007199254740992)
    (hctime : -9007199254740992 < req.statbuf.st_ctim_sec ∧
      req.statbuf.st_ctim_sec < 9007199254740992) :
    (fs_result heap fs_req req).getProp "size" = some (.int req.statbuf.st_size) ∧
    (fs_result heap fs_req req).getProp "mode" = some (.int req.statbuf.st_mode) ∧
    (fs_result heap fs_req req).getProp "mtime" = some (.int req.statbuf.st_mtim_sec) ∧
    (fs_result heap fs_req req).getProp "ctime" = some (.int req.statbuf.st_ctim_sec) := by
  have h1 : toInt64 (req.statbuf.st_size : Int) = req.statbuf.st_size := by
    unfold toInt64
    omega
  have h2 : toInt64 (req.statbuf.st_mode : Int) = req.statbuf.st_mode := by
    unfold toInt64
    omega
  have e1 := JS_NewInt64_exact (req.statbuf.st_size : Int) (by omega) (by omega)
  have e2 := JS_NewInt64_exact (req.statbuf.st_mode : Int) (by omega) (by omega)
  have e3 := JS_NewInt64_exact req.statbuf.st_mtim_sec hmtime.1 hmtime.2
  have e4 := JS_NewInt64_exact req.statbuf.st_ctim_sec hctime.1 hctime.2
  simp [fs_result, hkind, JS_SetPropertyStr, JSValue.getProp, h1, h2, e1, e2, e3, e4]

/-- C14, as stated, fails.  For a stat completion with result 0 the dispatcher
of `quickjs-libuv.c` builds an object with the fields size, mode and mtime and no
field ctime, although the stat buffer holds a change time.  And in the
dispatcher of `quickjs-libuv-v2.c` a size of 2^53 + 1 bytes is not carried as
such: `JS_NewInt64` stores it as the double 2^53. -/
theorem v1_stat_result_lacks_ctime :
    (∃ value t,
      V1.fs_result sampleHeap sampleStatV1 = .ok value ∧
      value.getProp "size" = some (.int 3) ∧
      value.getProp "mode" = some (.int 33188) ∧
      value.getProp "mtime" = some (.int 1700000000) ∧
      value.getProp "ctime" = none ∧
      sampleStatV1.statbuf.st_ctim_sec = 1700000001 ∧
      V1.js_uv_fs_cb uv_strerror_sample sampleHeap sampleStatV1 = .ok t ∧
      calls t = [] ∧
      freedValues t = [.undefined, value, .undefined, .promise 1]) ∧
    (fs_result sampleHeap sampleRecord
        { data := some sampleRecord, result := 0, fs_type := .UV_FS_STAT,
          statbuf := { st_size := 9007199254740993, st_mode := 33188,
                       st_mtim_sec := 1700000000, st_ctim_sec := 1700000001 } }).getProp "size"
      = some (.int 9007199254740992) :=
  ⟨⟨_, _, rfl, rfl, rfl, rfl, rfl, rfl, rfl, rfl, rfl⟩, by rfl⟩

/-- C14 (amended): for every stat completion with a non-negative native result
whose size, mode, modification-time seconds and change-time seconds are below
2^53 in magnitude: the dispatcher of `quickjs-libuv-v2.c`, on a record whose
resolve is a function, resolves the promise with an object carrying size, mode,
mtime and ctime equal to those values; the dispatcher of `quickjs-libuv.c`
builds, and hands to `js_uv_resolve_promise`, an object carrying size, mode and
mtime equal to those values and no ctime. -/
theorem stat_result_fields (uv_strerror : Int → String) (heap : Nat → List Nat)
    (req : uv_fs_t) (fs_req : JSUVFSRequest) (req1 : V1.uv_fs_t) (fs_req1 : V1.JSUVFSRequest)
    (c c1 : JSUVContext)
    (hdata : req.data = some fs_req) (hctx : fs_req.js_uv_ctx = some c)
    (hres : JS_IsFunction fs_req.promise_resolve = true)
    (hkind : req.fs_type = .UV_FS_STAT) (hn : 0 ≤ req.result)
    (hdata1 : req1.data = some fs_req1) (hctx1 : fs_req1.js_uv_ctx = some c1)
    (hkind1 : req1.fs_type = .UV_FS_STAT) (hn1 : 0 ≤ req1.result)
    (hstat : req1.statbuf = req.statbuf)
    (hsize : req.statbuf.st_size < 9007199254740992)
    (hmode : req.statbuf.st_mode < 9007199254740992)
    (hmtime : -9007199254740992 < req.statbuf.st_mtim_sec ∧
      req.statbuf.st_mtim_sec < 9007199254740992)
    (hctime : -9007199254740992 < req.statbuf.st_ctim_sec ∧
      req.statbuf.st_ctim_sec < 9007199254740992) :
    (∃ value t,
      js_uv_fs_cb uv_strerror heap req = .ok t ∧
      calls t = [(fs_req.promise_resolve, [value])] ∧
      value.getProp "size" = some (.int req.statbuf.st_size) ∧
      value.getProp "mode" = some (.int req.statbuf.st_mode) ∧
      value.getProp "mtime" = some (.int req.statbuf.st_mtim_sec) ∧
      value.getProp "ctime" = some (.int req.statbuf.st_ctim_sec)) ∧
    (∃ value1,
      V1.fs_result heap req1 = .ok value1 ∧
      V1.js_uv_fs_cb uv_strerror heap req1 =
        .ok (V1.js_uv_resolve_promise fs_req1.promise value1 ++ [.JS_FreeValue value1]
          ++ [.JS_FreeValue fs_req1.callback, .JS_FreeValue fs_req1.promise,
              .free fs_req1.self]) ∧
      value1.getProp "size" = some (.int req.statbuf.st_size) ∧
      value1.getProp "mode" = some (.int req.statbuf.st_mode) ∧
      value1.getProp "mtime" = some (.int req.statbuf.st_mtim_sec) ∧
      value1.getProp "ctime" = none) := by
  have h1 : toInt64 (req.statbuf.st_size : Int) = req.statbuf.st_size := by
    unfold toInt64
    omega
  have h2 : toInt64 (req.statbuf.st_mode : Int) = req.statbuf.st_mode := by
    unfold toInt64
    omega
  have e1 := JS_NewInt64_exact (req.statbuf.st_size : Int) (by omega) (by omega)
  have e2 := JS_NewInt64_exact (req.statbuf.st_mode : Int) (by omega) (by omega)
  have e3 := JS_NewInt64_exact req.statbuf.st_mtim_sec hmtime.1 hmtime.2
  have hnot : ¬ req.result < 0 := by omega
  have hnot1 : ¬ req1.result < 0 := by omega
  constructor
  · obtain ⟨f1, f2, f3, f4⟩ := fs_result_stat_fields heap fs_req req hkind hsize hmode hmtime
      hctime
    have hclean := js_uv_fs_req_cleanup_ok fs_req c hctx
    have hcb := js_uv_fs_cb_ok uv_strerror heap req fs_req c _ hdata hctx hclean
    refine ⟨fs_result heap fs_req req, _, hcb, ?_, f1, f2, f3, f4⟩
    cases fs_req.buffer <;>
      simp [fs_settle, hnot, js_uv_resolve_function _ _ hres, calls_append, calls]
  · have hv1 : V1.fs_result heap req1 =
        .ok (JS_SetPropertyStr
          (JS_SetPropertyStr
            (JS_SetPropertyStr JSValue.newObject "size"
              (JS_NewInt64 (toInt64 req1.statbuf.st_size)))
            "mode" (JS_NewInt64 (toInt64 req1.statbuf.st_mode)))
          "mtime" (JS_NewInt64 req1.statbuf.st_mtim_sec)) := by
      simp [V1.fs_result, hkind1]
    refine ⟨_, hv1, ?_, ?_, ?_, ?_, ?_⟩
    · simp [V1.js_uv_fs_cb, hdata1, hctx1, hnot1, hv1]
    · simp [JS_SetPropertyStr, JSValue.getProp, hstat, h1, e1]
    · simp [JS_SetPropertyStr, JSValue.getProp, hstat, h2, e2]
    · simp [JS_SetPropertyStr, JSValue.getProp, hstat, e3]
    · simp [JS_SetPropertyStr, JSValue.getProp]

/-- Witness for C14 (amended): the sample stat buffer delivered to both
dispatchers. -/
theorem stat_result_fields_witness :
    (∃ value t,
      js_uv_fs_cb uv_strerror_sample sampleHeap (sampleCompletion 0 .UV_FS_STAT) = .ok t ∧
      calls t = [(.resolveFn 1, [value])] ∧
      value.getProp "size" = some (.int 3) ∧ value.getProp "mode" = some (.int 33188) ∧
      value.getProp "mtime" = some (.int 1700000000) ∧
      value.getProp "ctime" = some (.int 1700000001)) ∧
    (∃ value1,
      V1.fs_result sampleHeap sampleStatV1 = .ok value1 ∧
      value1.getProp "size" = some (.int 3) ∧ value1.getProp "mode" = some (.int 33188) ∧
      value1.getProp "mtime" = some (.int 1700000000) ∧ value1.getProp "ctime" = none) := by
  obtain ⟨⟨v, t, a1, a2, a3, a4, a5, a6⟩, ⟨v1, b1, -, b3, b4, b5, b6⟩⟩ :=
    stat_result_fields uv_strerror_sample sampleHeap (sampleCompletion 0 .UV_FS_STAT)
      sampleRecord sampleStatV1
      { self := 300, callback := .undefined, promise := .promise 1,
        js_uv_ctx := some sampleContext }
      sampleContext sampleContext rfl rfl rfl rfl (by decide) rfl rfl rfl (by decide) rfl
      (by decide) (by decide) (by decide) (by decide)
  exact ⟨⟨v, t, a1, a2, a3, a4, a5, a6⟩, ⟨v1, b1, b3, b4, b5, b6⟩⟩

/-! ## The settlement capability -/

/-- Whatever the engine answers, `js_uv_create_promise` leaves the caller's
`reject` as it was. -/
theorem js_uv_create_promise_reject_unchanged (answer : Option Nat) (resolve reject : JSValue) :
    (js_uv_create_promise answer resolve reject).2.2.1 = reject := by
  cases answer <;> simp [js_uv_create_promise, JS_NewPromiseCapability, JS_IsException]

/-- C15, evaluated for a call in which the uninitialised local `reject` holds
the undefined value: `js_uv_create_promise` succeeds and sets `resolve` to the
resolve function of promise 1, but stores nothing through `reject` (the reject
function goes one `JSValue` past `resolve`, here to storage the call does not
read); the record of an issued read holds that stale value as `promise_reject`, not the reject
function of the promise; and when the open fails the call returns promise 1
without any host call, so the promise is never rejected. -/
theorem js_uv_create_promise_leaves_reject_unset :
    js_uv_create_promise (some 1) .undefined .undefined =
      (.promise 1, .resolveFn 1, .undefined, some (.rejectFn 1),
        [.JS_NewPromiseCapability 1]) ∧
    (∃ r fs_req,
      js_uv_fs_read uv_strerror_sample { sampleFsEnv with reject := .undefined } [.str "a.txt"]
        = .ok r ∧
      r.ret = .promise 1 ∧ r.pending = some fs_req ∧
      fs_req.promise_resolve = .resolveFn 1 ∧
      fs_req.promise_reject = .undefined ∧ fs_req.promise_reject ≠ .rejectFn 1) ∧
    (∃ r,
      js_uv_fs_read uv_strerror_sample { sampleFsEnv with reject := .undefined, fd := -2 }
        [.str "a.txt"] = .ok r ∧
      r.ret = .promise 1 ∧ r.pending = none ∧ calls r.trace = []) ∧
    (∃ r,
      js_uv_fs_write uv_strerror_sample { sampleFsEnv with reject := .undefined, fd := -2 }
        [.str "a.txt", .str "hi"] = .ok r ∧
      r.ret = .promise 1 ∧ r.pending = none ∧ calls r.trace = []) :=
  ⟨rfl, ⟨_, _, rfl, rfl, rfl, rfl, rfl, by decide⟩, ⟨_, rfl, rfl, rfl, rfl⟩,
    ⟨_, rfl, rfl, rfl, rfl⟩⟩

/-! ## The read buffer -/

/-- The capacity chosen by `js_uv_fs_read`: the probed size when the probe
succeeds with a non-zero size, 4096 otherwise; it is positive, and an issued read
allocates that many bytes and records that many as `buffer_size`.  The length
handed to the read is the capacity whenever the capacity is below 2^32. -/
theorem read_capacity (uv_strerror : Int → String) (env : FsEnv) (path : JSValue)
    (rest : List JSValue) (fn p reqp b : Nat) (c : JSUVContext)
    (hpath : JS_IsString path = true) (hfn : env.filename = some fn)
    (hp : env.promise = some p) (hreq : env.req = some reqp) (hctx : env.uvctx = some c)
    (hfd : 0 ≤ env.fd) (hbuf : env.buffer = some b) (hread : 0 ≤ env.issue_result) :
    ∃ capacity r fs_req,
      capacity = read_file_size env.stat_result env.st_size ∧
      (env.stat_result = 0 → env.st_size ≠ 0 → capacity = env.st_size) ∧
      (env.stat_result ≠ 0 ∨ env.st_size = 0 → capacity = 4096) ∧
      0 < capacity ∧
      js_uv_fs_read uv_strerror env (path :: rest) = .ok r ∧
      r.pending = some fs_req ∧ fs_req.buffer = some b ∧ fs_req.buffer_size = capacity ∧
      Event.malloc b (.bytes capacity) ∈ r.trace ∧
      Event.uv_fs_read reqp env.fd b (uv_buf_init capacity) ∈ r.trace ∧
      (capacity < 4294967296 → uv_buf_init capacity = fs_req.buffer_size) := by
  refine ⟨_, _, _, rfl, ?_, ?_, ?_,
    js_uv_fs_read_issued uv_strerror env path rest fn p reqp b c hpath hfn hp hreq hctx hfd hbuf
      hread, rfl, rfl, rfl, by simp, by simp, ?_⟩
  · intro h0 hs
    simp [read_file_size, h0, hs]
  · rintro (h | h)
    · simp [read_file_size, h]
    · simp [read_file_size, h]
  · unfold read_file_size
    by_cases h0 : env.stat_result = 0 <;> by_cases hs : env.st_size = 0 <;> simp [h0, hs]
    omega
  · intro h
    exact Nat.mod_eq_of_lt h

/-- C16, evaluated for a file of 4294967296 bytes (4 GiB) whose open, size
probe and buffer allocation succeed: the capacity and the record's
`buffer_size` are 4294967296, and the length handed to the read through
`uv_buf_init` is 0. -/
theorem js_uv_fs_read_length_truncated :
    ∃ r fs_req,
      js_uv_fs_read uv_strerror_sample { sampleFsEnv with st_size := 4294967296 } [.str "big"]
        = .ok r ∧
      r.pending = some fs_req ∧
      read_file_size 0 4294967296 = 4294967296 ∧
      fs_req.buffer_size = 4294967296 ∧
      r.trace = [.JS_ToCString 100, .JS_NewPromiseCapability 1, .calloc 300,
        .uv_fs_open 300 "big" "O_RDONLY", .uv_fs_stat "big",
        .malloc 400 (.bytes 4294967296), .uv_fs_read 300 5 400 0, .JS_FreeCString 100] :=
  ⟨_, _, rfl, rfl, rfl, rfl, rfl⟩

/-! ## The write payload -/

/-- On the success path of `js_uv_fs_write` with a string payload the call ends
with the release of the path and of the payload bytes, after the write was
issued and with the record still pending. -/
theorem js_uv_fs_write_releases_payload (uv_strerror : Int → String) (env : FsEnv)
    (path : JSValue) (text : String) (rest : List JSValue) (fn d p reqp : Nat)
    (c : JSUVContext)
    (hpath : JS_IsString path = true) (hfn : env.filename = some fn)
    (hd : env.data = some d) (hp : env.promise = some p) (hreq : env.req = some reqp)
    (hctx : env.uvctx = some c) (hfd : 0 ≤ env.fd) (hwrite : 0 ≤ env.issue_result) :
    ∃ r before,
      js_uv_fs_write uv_strerror env (path :: .str text :: rest) = .ok r ∧
      r.pending ≠ none ∧
      r.trace = before ++ [.uv_fs_write reqp env.fd d (uv_buf_init (writeLength env p (.str text))),
        .JS_FreeCString fn, .JS_FreeCString d] := by
  refine ⟨_, [.JS_ToCString fn, .JS_ToCString d, .JS_NewPromiseCapability p, .calloc reqp,
      .uv_fs_open reqp (cstringText path) "O_WRONLY | O_CREAT | O_TRUNC"],
    js_uv_fs_write_issued uv_strerror env path (.str text) rest fn d p reqp c hpath
      (Or.inl rfl) hfn hd hp hreq hctx hfd hwrite, by simp, ?_⟩
  simp [freeData, JS_IsString]

/-- C17, evaluated for the write of the string "hi" with every step
succeeding: the payload bytes (the C string at address 200) are handed to
`uv_fs_write`, and the call releases them with `JS_FreeCString` before it
returns, while the record is pending and the dispatcher has not run. -/
theorem js_uv_fs_write_frees_payload_in_flight :
    ∃ r fs_req,
      js_uv_fs_write uv_strerror_sample sampleFsEnv [.str "a.txt", .str "hi"] = .ok r ∧
      r.pending = some fs_req ∧
      r.trace = [.JS_ToCString 100, .JS_ToCString 200, .JS_NewPromiseCapability 1,
        .calloc 300, .uv_fs_open 300 "a.txt" "O_WRONLY | O_CREAT | O_TRUNC",
        .uv_fs_write 300 5 200 2, .JS_FreeCString 100, .JS_FreeCString 200] ∧
      freedCStrings r.trace = [100, 200] :=
  ⟨_, _, rfl, rfl, rfl, rfl⟩

/-- In a frame in which `data_len` lies one `JSValue` past `resolve`, the
engine's store of the reject function overwrites the payload length, and the
write is issued with the overwritten length (here 7 instead of 2). -/
theorem js_uv_fs_write_length_clobbered :
    ∃ r, js_uv_fs_write uv_strerror_sample
        { sampleFsEnv with past_resolve := .data_len, clobbered_len := 7 }
        [.str "a.txt", .str "hi"] = .ok r ∧
      r.trace = [.JS_ToCString 100, .JS_ToCString 200, .JS_NewPromiseCapability 1,
        .calloc 300, .uv_fs_open 300 "a.txt" "O_WRONLY | O_CREAT | O_TRUNC",
        .uv_fs_write 300 5 200 7, .JS_FreeCString 100, .JS_FreeCString 200] :=
  ⟨_, rfl, rfl⟩

end QuickJSLibuv
